import Mathlib

/-! # Lunar Go SDK: request validation and transport

A shallow embedding of `src/client/client.go`.  Go `error` values are modelled
by their message (`Option String`, `none` for `nil`), Go strings by `String`
(valid UTF-8 text), Go `int` by `Int`, and slice lengths and `range` indices by
`Nat`.  Every operation returns an `Outcome`: the Go return value together with
the list of effects (serialisation, dispatch, decoding) it performed, in order.
-/

namespace Lunar

/-! ## Go standard library -/

/-- Go `unicode.IsSpace`: the Latin-1 switch, and the `White_Space` range table
above Latin-1. -/
def isSpace (r : Char) : Bool :=
  if r.toNat ≤ 0xFF then
    r.toNat == 0x09 || r.toNat == 0x0A || r.toNat == 0x0B || r.toNat == 0x0C ||
    r.toNat == 0x0D || r.toNat == 0x20 || r.toNat == 0x85 || r.toNat == 0xA0
  else
    r.toNat == 0x1680 || (0x2000 ≤ r.toNat && r.toNat ≤ 0x200A) ||
    (0x2028 ≤ r.toNat && r.toNat ≤ 0x2029) || r.toNat == 0x202F ||
    r.toNat == 0x205F || r.toNat == 0x3000

/-- Go `strings.TrimSpace`: the string without its leading and trailing white space. -/
def TrimSpace (s : String) : String :=
  String.mk (List.rdropWhile isSpace (List.dropWhile isSpace s.data))

/-- Go `fmt` verb `%d` applied to a `range` index. -/
def fmtIndex (i : Nat) : String := toString i

/-- Go `fmt` verb `%d` applied to an `int`. -/
def fmtInt (n : Int) : String := toString n

/-! ## Package `types`

The package `types` is imported by `client.go`; the records below carry the
fields that `client.go` reads, and the further fields the specification lists. -/

namespace types

/-- Modelled from the spec: connection configuration `types.Config`
(`apiKey`, `baseURL`). -/
structure Config where
  APIKey : String
  BaseURL : String
deriving DecidableEq, Repr

/-- Modelled from the spec: `types.AddProduct`; `qty` is an integer, `value` and
`spent` are optional numbers, taken here as optional integers. -/
structure AddProduct where
  Token : String
  Name : String
  SKU : String
  Qty : Int
  Value : Option Int
  Spent : Option Int
deriving DecidableEq, Repr

/-- Modelled from the spec: `types.AddOrder`; `Extra` stands for the
additional descriptive fields, none of which `client.go` reads. -/
structure AddOrder where
  Token : String
  Name : String
  Status : String
  OrderNumber : String
  Extra : List (String × String)
deriving DecidableEq, Repr

/-- Modelled from the spec: `types.Address`, seven required strings and the
optional `line2`. -/
structure Address where
  Name : String
  Phone : String
  Line1 : String
  Line2 : Option String
  PostCode : String
  City : String
  Country : String
  State : String
deriving DecidableEq, Repr

/-- Modelled from the spec: `types.Payment`; `Type_` is the Go field `Type`. -/
structure Payment where
  Name : String
  Type_ : String
  LastFour : String
  ExpMonth : String
  ExpYear : String
deriving DecidableEq, Repr

/-- Modelled from the spec: `types.AddProfile`. -/
structure AddProfile where
  Token : String
  Billing : Address
  Shipping : Address
  Payment : Payment
deriving DecidableEq, Repr

/-- Modelled from the spec: `types.TaskProfile`, the profile embedded in a task. -/
structure TaskProfile where
  Billing : Address
  Shipping : Address
  Payment : Payment
deriving DecidableEq, Repr

/-- Modelled from the spec: `types.AddTask`. -/
structure AddTask where
  Token : String
  Bot : String
  Site : String
  Mode : String
  Input : String
  Proxy : String
  Profile : TaskProfile
deriving DecidableEq, Repr

/-- Modelled from the spec: `types.Field` of an embed. -/
structure Field where
  Name : String
  Value : String
  Inline : Option Bool
deriving DecidableEq, Repr

/-- Modelled from the spec: the optional sub-records of an embed (`Footer`,
`Author`, `Thumbnail`, `Image`), whose content `client.go` never reads. -/
structure SubRecord where
  entries : List (String × String)
deriving DecidableEq, Repr

/-- Modelled from the spec: `types.Embed`. -/
structure Embed where
  Title : Option String
  Description : Option String
  Color : Option Int
  URL : Option String
  Timestamp : Option String
  Fields : List Field
  Footer : Option SubRecord
  Author : Option SubRecord
  Thumbnail : Option SubRecord
  Image : Option SubRecord
deriving DecidableEq, Repr

/-- Modelled from the spec: `types.Webhook`, the webhook payload. -/
structure Webhook where
  Content : Option String
  Embeds : List Embed
deriving DecidableEq, Repr

/-- Modelled from the spec: `types.WebhookResponse`, the pass-through structure
decoded from a successful webhook call. -/
structure WebhookResponse where
  entries : List (String × String)
deriving DecidableEq, Repr

end types

/-! ## Transport model -/

/-- The `payload interface{}` argument of `json.Marshal`: one of the records. -/
inductive Payload where
  | product (p : types.AddProduct)
  | order (o : types.AddOrder)
  | profile (p : types.AddProfile)
  | task (t : types.AddTask)
  | webhook (w : types.Webhook)
deriving DecidableEq, Repr

/-- An `http.Request` as far as `client.go` builds it; `URL` is the string form
of the parsed URL the request carries. -/
structure Request where
  Method : String
  URL : String
  Header : List (String × String)
  Body : String
deriving DecidableEq, Repr

/-- An `http.Response` as far as `client.go` reads it. -/
structure Response where
  StatusCode : Int
  Body : String
deriving DecidableEq, Repr

/-- The behaviour of everything outside `client.go`: the JSON encoder and
decoder, request construction and the HTTP round trip.  An `Except.error`
carries the message of the Go error. -/
structure World where
  /-- The call `json.Marshal(payload)`. -/
  Marshal : Payload → Except String String
  /-- The `fmt` verb `%q` applied to a string. -/
  Quote : String → String
  /-- The call `url.Parse(rawURL)` inside `http.NewRequest`, an empty port
  removed from the host: the parsed URL, given by its string form
  `u.String()`, or the message of the parse error.  The string form can differ
  from `rawURL` in spelling (lower-cased scheme, escaped path). -/
  ParseURL : String → Except String String
  /-- The call `httpClient.Do(req)`. -/
  Do : Request → Except String Response
  /-- The call `json.NewDecoder(resp.Body).Decode(result)` for a caller-supplied result. -/
  DecodeResult : String → Option String
  /-- The call `json.NewDecoder(resp.Body).Decode(&webhookResp)`. -/
  DecodeWebhook : String → Except String types.WebhookResponse

/-- The effects an operation performs, in the order they happen. -/
inductive Event where
  | marshal (payload : Payload)
  | dispatch (req : Request)
  | decode (body : String)
deriving DecidableEq, Repr

/-- The return value of an operation and the effects it performed. -/
structure Outcome (α : Type) where
  ret : α
  trace : List Event
deriving DecidableEq, Repr

/-- Go `httpguts.IsTokenRune`: the token characters of RFC 7230 (39 is the
apostrophe and 96 the grave accent). -/
def IsTokenRune (r : Char) : Bool :=
  r.isAlphanum || "!#$%&*+-.^_|~".data.contains r || r.toNat == 39 || r.toNat == 96

/-- Go `http.validMethod`: a non-empty string of token characters. -/
def validMethod (method : String) : Bool :=
  decide (method.length > 0) && method.data.all IsTokenRune

/-- Go `http.NewRequest`: an empty method stands for `GET`, an invalid method is
an error, the URL is parsed, and the request carries the parsed URL and an
empty header. -/
def NewRequest (w : World) (method url body : String) : Except String Request :=
  let method := if method = "" then "GET" else method
  if !validMethod method then Except.error ("net/http: invalid method " ++ w.Quote method)
  else
    match w.ParseURL url with
    | Except.error err => Except.error err
    | Except.ok u => Except.ok ⟨method, u, [], body⟩

/-- Go `textproto.validHeaderFieldByte`: the token characters of a header name
(letters, digits and the punctuation of RFC 7230; 39 is the apostrophe and 96
the grave accent). -/
def validHeaderFieldByte (c : Char) : Bool :=
  c.isAlphanum || "!#$%&*+-.^_|~".data.contains c || c.toNat == 39 || c.toNat == 96

/-- The letter-case pass of Go `textproto.CanonicalMIMEHeaderKey`: upper case
for the first letter and for a letter after a hyphen, lower case elsewhere. -/
def canonicalLetters : Bool → List Char → List Char
  | _, [] => []
  | upper, c :: cs =>
    (if upper then c.toUpper else c.toLower) :: canonicalLetters (c == '-') cs

/-- Go `textproto.CanonicalMIMEHeaderKey`: a key holding a character that is
no token character is returned unchanged. -/
def CanonicalMIMEHeaderKey (s : String) : String :=
  if s.data.all validHeaderFieldByte then String.mk (canonicalLetters true s.data) else s

/-- Go `req.Header.Set(key, value)`: replaces the values stored under the
canonical form of `key`. -/
def Request.SetHeader (req : Request) (key value : String) : Request :=
  ⟨req.Method, req.URL,
    (req.Header.filter fun kv => kv.1 != CanonicalMIMEHeaderKey key) ++
      [(CanonicalMIMEHeaderKey key, value)],
    req.Body⟩

/-- Go `req.Header.Get(key)`: the value stored under the canonical form of
`key`; `none` when the header is absent (where Go returns the empty string). -/
def Request.GetHeader (req : Request) (key : String) : Option String :=
  (req.Header.find? fun kv => kv.1 == CanonicalMIMEHeaderKey key).map fun kv => kv.2

/-- The number of requests handed to `httpClient.Do` in a trace. -/
def dispatches (tr : List Event) : Nat :=
  (tr.filter fun e => match e with | Event.dispatch _ => true | _ => false).length

/-- The number of decode attempts in a trace. -/
def decodes (tr : List Event) : Nat :=
  (tr.filter fun e => match e with | Event.decode _ => true | _ => false).length

/-! ## Package `client` -/

/-- The `Client` struct; `timeout` is `httpClient.Timeout` in nanoseconds. -/
structure Client where
  apiKey : String
  baseURL : String
  timeout : Nat
deriving DecidableEq, Repr

/-- Go `time.Second`, in nanoseconds. -/
def Second : Nat := 1000000000

/-- `NewClient` (client.go 22-35). -/
def NewClient (config : types.Config) : Client :=
  let baseURL := if config.BaseURL = "" then "https://www.lunartools.co" else config.BaseURL
  ⟨config.APIKey, baseURL, 30 * Second⟩

/-- `Client.makeRequest` (client.go 228-259); `result` is `true` when the
`result` argument is not `nil`. -/
def Client.makeRequest (c : Client) (w : World) (method path : String) (payload : Payload)
    (result : Bool) : Outcome (Option String) :=
  match w.Marshal payload with
  | Except.error err => ⟨some ("failed to marshal payload: " ++ err), [Event.marshal payload]⟩
  | Except.ok jsonData =>
    match NewRequest w method (c.baseURL ++ path) jsonData with
    | Except.error err => ⟨some ("failed to create request: " ++ err), [Event.marshal payload]⟩
    | Except.ok req0 =>
      let req := (req0.SetHeader "Content-Type" "application/json").SetHeader "x-api-key" c.apiKey
      match w.Do req with
      | Except.error err =>
        ⟨some ("failed to send request: " ++ err), [Event.marshal payload, Event.dispatch req]⟩
      | Except.ok resp =>
        if resp.StatusCode < 200 ∨ resp.StatusCode ≥ 300 then
          ⟨some ("request failed with status: " ++ fmtInt resp.StatusCode),
            [Event.marshal payload, Event.dispatch req]⟩
        else if result then
          match w.DecodeResult resp.Body with
          | some err =>
            ⟨some ("failed to decode response: " ++ err),
              [Event.marshal payload, Event.dispatch req, Event.decode resp.Body]⟩
          | none => ⟨none, [Event.marshal payload, Event.dispatch req, Event.decode resp.Body]⟩
        else ⟨none, [Event.marshal payload, Event.dispatch req]⟩

/-- `Client.AddProduct` (client.go 37-58). -/
def Client.AddProduct (c : Client) (w : World) (product : types.AddProduct) :
    Outcome (Option String) :=
  if TrimSpace product.Token = "" then ⟨some "user access token is required", []⟩
  else if TrimSpace product.Name = "" then ⟨some "product name is required", []⟩
  else if TrimSpace product.SKU = "" then ⟨some "product SKU is required", []⟩
  else if product.Qty < 0 then ⟨some "product quantity must be a non-negative number", []⟩
  else if product.Value.any (fun v => decide (v < 0)) then
    ⟨some "product value must be a non-negative number", []⟩
  else if product.Spent.any (fun v => decide (v < 0)) then
    ⟨some "product spent must be a non-negative number", []⟩
  else c.makeRequest w "POST" "/api/sdk/add-product" (Payload.product product) false

/-- `Client.AddOrder` (client.go 60-75). -/
def Client.AddOrder (c : Client) (w : World) (order : types.AddOrder) :
    Outcome (Option String) :=
  if TrimSpace order.Token = "" then ⟨some "user access token is required", []⟩
  else if TrimSpace order.Name = "" then ⟨some "order name is required", []⟩
  else if TrimSpace order.Status = "" then ⟨some "order status is required", []⟩
  else if TrimSpace order.OrderNumber = "" then ⟨some "order number is required", []⟩
  else c.makeRequest w "POST" "/api/sdk/add-order" (Payload.order order) false

/-- `Client.validateAddress` (client.go 129-152); the receiver is not used. -/
def Client.validateAddress (address : types.Address) (addressType : String) : Option String :=
  if TrimSpace address.Name = "" then some (addressType ++ " name is required")
  else if TrimSpace address.Phone = "" then some (addressType ++ " phone is required")
  else if TrimSpace address.Line1 = "" then some (addressType ++ " line1 is required")
  else if TrimSpace address.PostCode = "" then some (addressType ++ " postCode is required")
  else if TrimSpace address.City = "" then some (addressType ++ " city is required")
  else if TrimSpace address.Country = "" then some (addressType ++ " country is required")
  else if TrimSpace address.State = "" then some (addressType ++ " state is required")
  else none

/-- `Client.validatePayment` (client.go 154-171); the receiver is not used. -/
def Client.validatePayment (payment : types.Payment) : Option String :=
  if TrimSpace payment.Name = "" then some "payment name is required"
  else if TrimSpace payment.Type_ = "" then some "payment type is required"
  else if TrimSpace payment.LastFour = "" then some "payment lastFour is required"
  else if TrimSpace payment.ExpMonth = "" then some "payment expMonth is required"
  else if TrimSpace payment.ExpYear = "" then some "payment expYear is required"
  else none

/-- `Client.AddProfile` (client.go 77-93). -/
def Client.AddProfile (c : Client) (w : World) (profile : types.AddProfile) :
    Outcome (Option String) :=
  if TrimSpace profile.Token = "" then ⟨some "user access token is required", []⟩
  else
    match Client.validateAddress profile.Billing "billing" with
    | some err => ⟨some err, []⟩
    | none =>
      match Client.validateAddress profile.Shipping "shipping" with
      | some err => ⟨some err, []⟩
      | none =>
        match Client.validatePayment profile.Payment with
        | some err => ⟨some err, []⟩
        | none => c.makeRequest w "POST" "/api/sdk/add-profile" (Payload.profile profile) false

/-- `Client.AddTask` (client.go 95-127). -/
def Client.AddTask (c : Client) (w : World) (task : types.AddTask) : Outcome (Option String) :=
  if TrimSpace task.Token = "" then ⟨some "user access token is required", []⟩
  else if TrimSpace task.Bot = "" then ⟨some "bot name is required", []⟩
  else if TrimSpace task.Site = "" then ⟨some "site is required", []⟩
  else if TrimSpace task.Mode = "" then ⟨some "mode is required", []⟩
  else if TrimSpace task.Input = "" then ⟨some "input is required", []⟩
  else
    match Client.validateAddress task.Profile.Billing "billing" with
    | some err => ⟨some err, []⟩
    | none =>
      match Client.validateAddress task.Profile.Shipping "shipping" with
      | some err => ⟨some err, []⟩
      | none =>
        match Client.validatePayment task.Profile.Payment with
        | some err => ⟨some err, []⟩
        | none =>
          if TrimSpace task.Proxy = "" then ⟨some "proxy is required", []⟩
          else c.makeRequest w "POST" "/api/sdk/add-task" (Payload.task task) false

/-- The inner loop of `Client.Webhook` (client.go 188-195) over the fields of
embed `i`, from field index `j` on: the first error, if any. -/
def Webhook.fieldLoop (i : Nat) : Nat → List types.Field → Option String
  | _, [] => none
  | j, field :: rest =>
    if TrimSpace field.Name = "" then
      some ("embed " ++ fmtIndex i ++ ", field " ++ fmtIndex j ++ ": name is required")
    else if TrimSpace field.Value = "" then
      some ("embed " ++ fmtIndex i ++ ", field " ++ fmtIndex j ++ ": value is required")
    else Webhook.fieldLoop i (j + 1) rest

/-- The outer loop of `Client.Webhook` (client.go 184-196), from embed index
`i` on: the first error, if any. -/
def Webhook.embedLoop : Nat → List types.Embed → Option String
  | _, [] => none
  | i, embed :: rest =>
    if embed.Fields.length > 25 then
      some ("embed " ++ fmtIndex i ++ " exceeds the maximum of 25 fields")
    else
      match Webhook.fieldLoop i 0 embed.Fields with
      | some err => some err
      | none => Webhook.embedLoop (i + 1) rest

/-- The validation part of `Client.Webhook` (client.go 174-196): the error it
returns, or `none` when control reaches `json.Marshal`. -/
def Webhook.validate (payload : types.Webhook) : Option String :=
  let hasContent := payload.Content.any fun s => TrimSpace s != ""
  let hasEmbeds := payload.Embeds.length > 0
  if !hasContent && !decide hasEmbeds then
    some "webhook payload must contain either content or at least one embed"
  else if payload.Embeds.length > 10 then
    some "discord webhooks support a maximum of 10 embeds"
  else Webhook.embedLoop 0 payload.Embeds

/-- The transport part of `Client.Webhook` (client.go 198-225). -/
def Webhook.send (w : World) (webhookURL : String) (payload : types.Webhook) :
    Outcome (Option types.WebhookResponse × Option String) :=
  match w.Marshal (Payload.webhook payload) with
  | Except.error err =>
    ⟨(none, some ("failed to marshal webhook payload: " ++ err)),
      [Event.marshal (Payload.webhook payload)]⟩
  | Except.ok jsonData =>
    match NewRequest w "POST" webhookURL jsonData with
    | Except.error err =>
      ⟨(none, some ("failed to create request: " ++ err)),
        [Event.marshal (Payload.webhook payload)]⟩
    | Except.ok req0 =>
      let req := req0.SetHeader "Content-Type" "application/json"
      match w.Do req with
      | Except.error err =>
        ⟨(none, some ("failed to send webhook: " ++ err)),
          [Event.marshal (Payload.webhook payload), Event.dispatch req]⟩
      | Except.ok resp =>
        if resp.StatusCode < 200 ∨ resp.StatusCode ≥ 300 then
          ⟨(none, some ("webhook request failed with status: " ++ fmtInt resp.StatusCode)),
            [Event.marshal (Payload.webhook payload), Event.dispatch req]⟩
        else
          match w.DecodeWebhook resp.Body with
          | Except.error err =>
            ⟨(none, some ("failed to decode response: " ++ err)),
              [Event.marshal (Payload.webhook payload), Event.dispatch req,
                Event.decode resp.Body]⟩
          | Except.ok webhookResp =>
            ⟨(some webhookResp, none),
              [Event.marshal (Payload.webhook payload), Event.dispatch req,
                Event.decode resp.Body]⟩

/-- `Client.Webhook` (client.go 173-226): validation, then transport. -/
def Client.Webhook (_c : Client) (w : World) (webhookURL : String) (payload : types.Webhook) :
    Outcome (Option types.WebhookResponse × Option String) :=
  match Webhook.validate payload with
  | some err => ⟨(none, some err), []⟩
  | none => Webhook.send w webhookURL payload

/-! ## Specification-side vocabulary -/

/-- A string is blank when it is empty or holds white space only. -/
def blank (s : String) : Bool := s.data.all isSpace

/-- The seven required fields of an address. -/
inductive AddressField where
  | name | phone | line1 | postCode | city | country | state
deriving DecidableEq, Repr

/-- The content of a required address field. -/
def AddressField.get : AddressField → types.Address → String
  | AddressField.name, a => a.Name
  | AddressField.phone, a => a.Phone
  | AddressField.line1, a => a.Line1
  | AddressField.postCode, a => a.PostCode
  | AddressField.city, a => a.City
  | AddressField.country, a => a.Country
  | AddressField.state, a => a.State

/-- The name of a required address field as error messages spell it. -/
def AddressField.label : AddressField → String
  | AddressField.name => "name"
  | AddressField.phone => "phone"
  | AddressField.line1 => "line1"
  | AddressField.postCode => "postCode"
  | AddressField.city => "city"
  | AddressField.country => "country"
  | AddressField.state => "state"

/-- The two address roles of a profile. -/
inductive Role where
  | billing | shipping
deriving DecidableEq, Repr

/-- The name of a role as error messages spell it. -/
def Role.label : Role → String
  | Role.billing => "billing"
  | Role.shipping => "shipping"

/-- The address of a standalone profile in a given role. -/
def Role.ofProfile : Role → types.AddProfile → types.Address
  | Role.billing, p => p.Billing
  | Role.shipping, p => p.Shipping

/-- The address of a task's embedded profile in a given role. -/
def Role.ofTask : Role → types.AddTask → types.Address
  | Role.billing, t => t.Profile.Billing
  | Role.shipping, t => t.Profile.Shipping

/-- An address is valid when its seven required fields are all non-blank. -/
def addressValid (a : types.Address) : Bool :=
  !blank a.Name && !blank a.Phone && !blank a.Line1 && !blank a.PostCode &&
  !blank a.City && !blank a.Country && !blank a.State

/-- A payment is valid when its five fields are all non-blank. -/
def paymentValid (p : types.Payment) : Bool :=
  !blank p.Name && !blank p.Type_ && !blank p.LastFour && !blank p.ExpMonth && !blank p.ExpYear

/-- The messages of the validation rules of `AddProduct`. -/
def productMessages : List String :=
  ["user access token is required", "product name is required", "product SKU is required",
   "product quantity must be a non-negative number",
   "product value must be a non-negative number",
   "product spent must be a non-negative number"]

/-! ## Sample inputs -/

/-- The scan of Go `url.getScheme` from index `i` on: the scheme and the rest
after the colon, or no scheme and the whole string. -/
def getSchemeLoop (rawURL : List Char) : Nat → List Char → Except String (List Char × List Char)
  | _, [] => Except.ok ([], rawURL)
  | i, c :: rest =>
    if c.isAlpha then getSchemeLoop rawURL (i + 1) rest
    else if c.isDigit || c == '+' || c == '-' || c == '.' then
      if i = 0 then Except.ok ([], rawURL) else getSchemeLoop rawURL (i + 1) rest
    else if c == ':' then
      if i = 0 then Except.error "missing protocol scheme"
      else Except.ok (rawURL.take i, rest)
    else Except.ok ([], rawURL)

/-- Go `url.getScheme`. -/
def getScheme (rawURL : String) : Except String (List Char × List Char) :=
  getSchemeLoop rawURL.data 0 rawURL.data

/-- The string form of Go `url.Parse` for an absolute URL whose part after the
scheme is already spelled as Go prints it (plain host, path without characters
to escape, no empty port), as the sample URLs below are: the scheme is
lower-cased (`url.Parse` applies `strings.ToLower` to the result of
`getScheme`), the rest is kept. -/
def parseSchemeOnly (rawURL : String) : Except String String :=
  match getScheme rawURL with
  | Except.error err =>
    Except.error ("parse " ++ String.singleton (Char.ofNat 34) ++ rawURL ++
      String.singleton (Char.ofNat 34) ++ ": " ++ err)
  | Except.ok (scheme, rest) =>
    if scheme.isEmpty then Except.ok rawURL
    else Except.ok (String.mk (scheme.map Char.toLower ++ ':' :: rest))

/-- A remote stub answering every request with the given status and body; an
empty body does not decode; URLs are parsed by `parseSchemeOnly`. -/
def stubWorld (status : Int) (body : String) : World where
  Marshal := fun _ => Except.ok "{}"
  Quote := fun s => String.singleton (Char.ofNat 34) ++ s ++ String.singleton (Char.ofNat 34)
  ParseURL := parseSchemeOnly
  Do := fun _ => Except.ok ⟨status, body⟩
  DecodeResult := fun b => if b = "" then some "EOF" else none
  DecodeWebhook := fun b => if b = "" then Except.error "EOF" else Except.ok ⟨[]⟩

/-- A sample client. -/
def sampleClient : Client := NewClient ⟨"key", ""⟩

/-- A sample product with the given quantity, otherwise valid. -/
def sampleProduct (qty : Int) : types.AddProduct := ⟨"tok", "Shoe", "SKU-1", qty, none, some 0⟩

/-- A sample valid address. -/
def sampleAddress : types.Address :=
  ⟨"Ann Lee", "555-0100", "1 Main St", none, "12345", "Springfield", "US", "IL"⟩

/-- A sample valid payment. -/
def samplePayment : types.Payment := ⟨"Ann Lee", "visa", "4242", "01", "2030"⟩

/-- A sample valid profile. -/
def sampleProfile : types.AddProfile := ⟨"tok", sampleAddress, sampleAddress, samplePayment⟩

/-- A sample valid task with the given proxy. -/
def sampleTask (proxy : String) : types.AddTask :=
  ⟨"tok", "bot-1", "example.com", "fast", "sku-123", proxy,
    ⟨sampleAddress, sampleAddress, samplePayment⟩⟩

/-- The sample address with a white-space-only post code. -/
def addressNoPostCode : types.Address :=
  ⟨"Ann Lee", "555-0100", "1 Main St", none, " \t", "Springfield", "US", "IL"⟩

/-- The sample profile whose shipping address lacks the post code. -/
def profileNoShippingPostCode : types.AddProfile :=
  ⟨"tok", sampleAddress, addressNoPostCode, samplePayment⟩

/-- The sample task whose billing address lacks the post code. -/
def taskNoBillingPostCode : types.AddTask :=
  ⟨"tok", "bot-1", "example.com", "fast", "sku-123", "127.0.0.1:8080",
    ⟨addressNoPostCode, sampleAddress, samplePayment⟩⟩

/-- The content of a webhook payload is absent or blank. -/
def contentBlank (p : types.Webhook) : Bool :=
  match p.Content with
  | none => true
  | some s => blank s

/-- Every field of the list has a non-blank name and a non-blank value. -/
def fieldsOk (fs : List types.Field) : Bool :=
  fs.all fun f => !blank f.Name && !blank f.Value

/-- An embed has at most 25 fields, all with non-blank name and value. -/
def embedOk (e : types.Embed) : Bool :=
  decide (e.Fields.length ≤ 25) && fieldsOk e.Fields

/-- A sample field. -/
def sampleField : types.Field := ⟨"Size", "42", none⟩

/-- An embed with the given fields and nothing else. -/
def embedWith (fields : List types.Field) : types.Embed :=
  ⟨none, none, none, none, none, fields, none, none, none, none⟩

/-- A payload without content whose single embed has one field with an empty name. -/
def payloadBlankFieldName : types.Webhook :=
  ⟨none, [embedWith [⟨"", "42", none⟩]]⟩

/-- A payload without content holding `n` copies of an embed with `k` sample fields. -/
def payloadOf (n k : Nat) : types.Webhook :=
  ⟨none, List.replicate n (embedWith (List.replicate k sampleField))⟩

/-- A payload whose embed 0 is well formed and whose embed 1 has 26 fields, the
first of them blank. -/
def payloadSecondEmbedTooLong : types.Webhook :=
  ⟨some "restock", [embedWith [sampleField],
    embedWith (⟨"", "", none⟩ :: List.replicate 25 sampleField)]⟩

/-- An optional number is absent or non-negative. -/
def nonNegative (v : Option Int) : Bool :=
  match v with
  | none => true
  | some x => decide (0 ≤ x)

/-- The validation rules of a product. -/
def productValid (p : types.AddProduct) : Bool :=
  !blank p.Token && !blank p.Name && !blank p.SKU && decide (0 ≤ p.Qty) &&
  nonNegative p.Value && nonNegative p.Spent

/-- The validation rules of an order. -/
def orderValid (o : types.AddOrder) : Bool :=
  !blank o.Token && !blank o.Name && !blank o.Status && !blank o.OrderNumber

/-- The validation rules of a profile: token non-blank, both addresses valid,
payment valid. -/
def profileValid (p : types.AddProfile) : Bool :=
  !blank p.Token && addressValid p.Billing && addressValid p.Shipping && paymentValid p.Payment

/-- The validation rules of a task. -/
def taskValid (t : types.AddTask) : Bool :=
  !blank t.Token && !blank t.Bot && !blank t.Site && !blank t.Mode && !blank t.Input &&
  addressValid t.Profile.Billing && addressValid t.Profile.Shipping &&
  paymentValid t.Profile.Payment && !blank t.Proxy

/-- The validation rules of a webhook payload. -/
def webhookValid (p : types.Webhook) : Bool :=
  (!contentBlank p || !p.Embeds.isEmpty) && decide (p.Embeds.length ≤ 10) &&
  p.Embeds.all embedOk

/-- An address with its `Line2` replaced. -/
def withLine2 (a : types.Address) (line2 : Option String) : types.Address :=
  ⟨a.Name, a.Phone, a.Line1, line2, a.PostCode, a.City, a.Country, a.State⟩

/-- A profile with the `Line2` of both addresses replaced. -/
def profileWithLine2 (p : types.AddProfile) (billing shipping : Option String) :
    types.AddProfile :=
  ⟨p.Token, withLine2 p.Billing billing, withLine2 p.Shipping shipping, p.Payment⟩

/-- The request `makeRequest` hands to the HTTP client: the request `req0`
built by `http.NewRequest`, with the two headers set. -/
def requestOf (c : Client) (req0 : Request) : Request :=
  (req0.SetHeader "Content-Type" "application/json").SetHeader "x-api-key" c.apiKey

/-- A sample order. -/
def sampleOrder : types.AddOrder := ⟨"tok", "Shoe", "shipped", "A-1", []⟩

/-- The request a record submission hands to the HTTP client: `POST` to the
parsed URL `u`, with the two headers `makeRequest` sets, as Go stores them. -/
def recordRequest (c : Client) (u jsonData : String) : Request :=
  ⟨"POST", u, [("Content-Type", "application/json"), ("X-Api-Key", c.apiKey)], jsonData⟩

/-- The request `Webhook` hands to the HTTP client: `POST` to the parsed URL `u`. -/
def webhookRequest (u jsonData : String) : Request :=
  ⟨"POST", u, [("Content-Type", "application/json")], jsonData⟩

/-- A client whose base URL spells the scheme in upper case. -/
def upperSchemeClient : Client := NewClient ⟨"key", "HTTP://Example.COM"⟩

/-- The message of the first violated rule in a list of rules, each given as
the pair of "the record violates the rule" and the rule's message. -/
def firstViolation (rules : List (Bool × String)) : Option String :=
  (rules.find? fun r => r.1).map fun r => r.2

/-- An optional number is present and negative. -/
def presentNegative (v : Option Int) : Bool :=
  match v with
  | none => false
  | some x => decide (x < 0)

/-- The rules of a product in the order token, name, SKU, qty, value, spent. -/
def productRules (p : types.AddProduct) : List (Bool × String) :=
  [(blank p.Token, "user access token is required"),
   (blank p.Name, "product name is required"),
   (blank p.SKU, "product SKU is required"),
   (decide (p.Qty < 0), "product quantity must be a non-negative number"),
   (presentNegative p.Value, "product value must be a non-negative number"),
   (presentNegative p.Spent, "product spent must be a non-negative number")]

/-- The rules of an address in a role, in the order name, phone, line1,
postCode, city, country, state. -/
def addressRules (role : String) (a : types.Address) : List (Bool × String) :=
  [(blank a.Name, role ++ " name is required"),
   (blank a.Phone, role ++ " phone is required"),
   (blank a.Line1, role ++ " line1 is required"),
   (blank a.PostCode, role ++ " postCode is required"),
   (blank a.City, role ++ " city is required"),
   (blank a.Country, role ++ " country is required"),
   (blank a.State, role ++ " state is required")]

/-- The rules of a payment in the order name, type, lastFour, expMonth, expYear. -/
def paymentRules (m : types.Payment) : List (Bool × String) :=
  [(blank m.Name, "payment name is required"),
   (blank m.Type_, "payment type is required"),
   (blank m.LastFour, "payment lastFour is required"),
   (blank m.ExpMonth, "payment expMonth is required"),
   (blank m.ExpYear, "payment expYear is required")]

/-- The address and payment rules of a task's embedded profile: billing
address, shipping address, payment. -/
def embeddedProfileRules (t : types.AddTask) : List (Bool × String) :=
  addressRules "billing" t.Profile.Billing ++ addressRules "shipping" t.Profile.Shipping ++
    paymentRules t.Profile.Payment

/-- The rules of a task in the order token, bot, site, mode, input, billing
address, shipping address, payment, proxy. -/
def taskRules (t : types.AddTask) : List (Bool × String) :=
  [(blank t.Token, "user access token is required"),
   (blank t.Bot, "bot name is required"),
   (blank t.Site, "site is required"),
   (blank t.Mode, "mode is required"),
   (blank t.Input, "input is required")] ++
  embeddedProfileRules t ++ [(blank t.Proxy, "proxy is required")]

/-- A product with a blank name, a negative quantity and a negative value. -/
def productManyViolations : types.AddProduct := ⟨"tok", " ", "SKU-1", -2, some (-1), none⟩

/-- A task with a blank proxy whose payment lacks the expiry year. -/
def taskNoProxyNoExpYear : types.AddTask :=
  ⟨"tok", "bot-1", "example.com", "fast", "sku-123", "",
    ⟨sampleAddress, sampleAddress, ⟨"Ann Lee", "visa", "4242", "01", ""⟩⟩⟩

/-- The messages of the rules of a task, in rule order. -/
def taskMessages : List String :=
  ["user access token is required", "bot name is required", "site is required",
   "mode is required", "input is required",
   "billing name is required", "billing phone is required", "billing line1 is required",
   "billing postCode is required", "billing city is required", "billing country is required",
   "billing state is required",
   "shipping name is required", "shipping phone is required", "shipping line1 is required",
   "shipping postCode is required", "shipping city is required",
   "shipping country is required", "shipping state is required",
   "payment name is required", "payment type is required", "payment lastFour is required",
   "payment expMonth is required", "payment expYear is required",
   "proxy is required"]

/-- The rules of the fields of embed `i`: for each field in sequence order,
with its zero-based index `j`, the name rule then the value rule. -/
def fieldRules (i : Nat) (fields : List types.Field) : List (Bool × String) :=
  fields.enum.flatMap fun jf =>
    [(blank jf.2.Name,
        "embed " ++ fmtIndex i ++ ", field " ++ fmtIndex jf.1 ++ ": name is required"),
     (blank jf.2.Value,
        "embed " ++ fmtIndex i ++ ", field " ++ fmtIndex jf.1 ++ ": value is required")]

/-- The rules of the embeds: for each embed in sequence order, with its
zero-based index `i`, the field-count rule followed by the rules of its fields. -/
def embedRules (embeds : List types.Embed) : List (Bool × String) :=
  embeds.enum.flatMap fun ie =>
    (decide (25 < ie.2.Fields.length),
        "embed " ++ fmtIndex ie.1 ++ " exceeds the maximum of 25 fields") ::
      fieldRules ie.1 ie.2.Fields

/-- The rules of a webhook payload: presence, embed count, then the embeds. -/
def webhookRules (p : types.Webhook) : List (Bool × String) :=
  [(contentBlank p && p.Embeds.isEmpty,
      "webhook payload must contain either content or at least one embed"),
   (decide (10 < p.Embeds.length), "discord webhooks support a maximum of 10 embeds")] ++
  embedRules p.Embeds

/-- A payload whose embed 1 has a well formed field 0 and a field 1 with a
blank value, after a well formed embed 0. -/
def payloadBlankValue : types.Webhook :=
  ⟨some "restock", [embedWith [sampleField],
    embedWith [sampleField, ⟨"Price", " ", none⟩, ⟨"", "", none⟩]]⟩

/-- The rules of an order in the order token, name, status, orderNumber. -/
def orderRules (o : types.AddOrder) : List (Bool × String) :=
  [(blank o.Token, "user access token is required"),
   (blank o.Name, "order name is required"),
   (blank o.Status, "order status is required"),
   (blank o.OrderNumber, "order number is required")]

/-- A string holds at least one character that is no white space. -/
def hasVisible (s : String) : Bool := s.data.any fun ch => !isSpace ch

/-- An order with its additional descriptive fields replaced. -/
def orderWithExtra (o : types.AddOrder) (extra : List (String × String)) : types.AddOrder :=
  ⟨o.Token, o.Name, o.Status, o.OrderNumber, extra⟩

/-- An order whose name is a tab and whose status is spaces and a line feed. -/
def orderBlankNameStatus : types.AddOrder := ⟨"tok", "\t", "  \n", "A-1", [("size", "42")]⟩

/-- An embed with its fields replaced. -/
def withFields (e : types.Embed) (fields : List types.Field) : types.Embed :=
  ⟨e.Title, e.Description, e.Color, e.URL, e.Timestamp, fields, e.Footer, e.Author,
    e.Thumbnail, e.Image⟩

/-- The embed `e'` is the embed `e` with its fields replaced by a sub-sequence
of them. -/
def FieldsRemoved (e' e : types.Embed) : Prop :=
  e'.Fields.Sublist e.Fields ∧ e' = withFields e e'.Fields

/-- The payload `p'` keeps the content of `p`, and its embeds are a
sub-sequence of the embeds of `p`, each with fields removed. -/
def Reduced (p' p : types.Webhook) : Prop :=
  p'.Content = p.Content ∧ List.SublistForall₂ FieldsRemoved p'.Embeds p.Embeds

/-- A valid payload with content and three embeds of two fields each. -/
def payloadThreeEmbeds : types.Webhook :=
  ⟨some "restock",
    [embedWith [sampleField, ⟨"Price", "10", none⟩],
     embedWith [⟨"Store", "A", none⟩, sampleField],
     embedWith [sampleField, sampleField]]⟩

/-- The payload `payloadThreeEmbeds` without its embed 1 and without the
second field of its embed 0. -/
def payloadThreeEmbedsReduced : types.Webhook :=
  ⟨some "restock", [embedWith [sampleField], embedWith [sampleField, sampleField]]⟩

/-! ## Lemmas on blank strings -/

theorem TrimSpace_eq_empty (s : String) : (TrimSpace s = "") = (blank s = true) := by
  have h : (TrimSpace s = "") ↔
      List.rdropWhile isSpace (List.dropWhile isSpace s.data) = [] := by
    unfold TrimSpace
    constructor
    · intro h
      exact congrArg String.data h
    · intro h
      rw [h]
  rw [h, List.rdropWhile_eq_nil_iff]
  simp only [blank, List.all_eq_true, eq_iff_iff]
  constructor
  · intro h x hx
    by_contra hsp
    have hne : List.dropWhile isSpace s.data ≠ [] := by
      intro hnil
      rw [List.dropWhile_eq_nil_iff] at hnil
      exact hsp (hnil x hx)
    have hhead := List.head_dropWhile_not isSpace s.data hne
    have hmem := List.head_mem hne
    rw [h _ hmem] at hhead
    exact absurd hhead (by simp)
  · intro h x hx
    exact h x ((List.dropWhile_sublist isSpace).subset hx)

theorem TrimSpace_ne_empty (s : String) : TrimSpace s ≠ "" ↔ blank s = false := by
  rw [ne_eq, TrimSpace_eq_empty]
  simp

/-! ## AddProduct: the quantity rule -/

/-- C1: a product with a negative quantity is rejected by validation whatever
its other fields hold (the error is one of the validation messages and nothing is
serialised or sent; it is the quantity message when token, name and SKU are
non-blank), and a product with quantity zero whose other fields are valid
passes validation: `AddProduct` returns exactly the result of
`makeRequest("POST", "/api/sdk/add-product", product, nil)`. -/
theorem AddProduct_qty (c : Client) (w : World) (p : types.AddProduct) :
    (p.Qty < 0 → ∃ msg ∈ productMessages, c.AddProduct w p = ⟨some msg, []⟩) ∧
    (p.Qty < 0 → blank p.Token = false → blank p.Name = false → blank p.SKU = false →
      c.AddProduct w p = ⟨some "product quantity must be a non-negative number", []⟩) ∧
    (p.Qty = 0 → blank p.Token = false → blank p.Name = false → blank p.SKU = false →
      (∀ v, p.Value = some v → 0 ≤ v) → (∀ v, p.Spent = some v → 0 ≤ v) →
      c.AddProduct w p =
        c.makeRequest w "POST" "/api/sdk/add-product" (Payload.product p) false) := by
  refine ⟨?_, ?_, ?_⟩
  · intro hq
    unfold Client.AddProduct
    split
    · exact ⟨_, by simp [productMessages], rfl⟩
    split
    · exact ⟨_, by simp [productMessages], rfl⟩
    split
    · exact ⟨_, by simp [productMessages], rfl⟩
    exact ⟨_, by simp [productMessages], rfl⟩
  · intro hq ht hn hs
    simp [Client.AddProduct, TrimSpace_eq_empty, ht, hn, hs, hq]
  · intro hq ht hn hs hv hsp
    have hv2 : p.Value.any (fun v => decide (v < 0)) = false := by
      cases hval : p.Value with
      | none => rfl
      | some v => simpa using hv v hval
    have hs2 : p.Spent.any (fun v => decide (v < 0)) = false := by
      cases hval : p.Spent with
      | none => rfl
      | some v => simpa using hsp v hval
    simp [Client.AddProduct, TrimSpace_eq_empty, ht, hn, hs, hq, hv2, hs2]

/-- Witness for C1: quantity -1 is rejected with the quantity message, and
quantity 0 reaches `makeRequest`. -/
theorem AddProduct_qty_witness :
    ((sampleProduct (-1)).Qty < 0 ∧
      sampleClient.AddProduct (stubWorld 201 "") (sampleProduct (-1)) =
        ⟨some "product quantity must be a non-negative number", []⟩) ∧
    ((sampleProduct 0).Qty = 0 ∧
      sampleClient.AddProduct (stubWorld 201 "") (sampleProduct 0) =
        sampleClient.makeRequest (stubWorld 201 "") "POST" "/api/sdk/add-product"
          (Payload.product (sampleProduct 0)) false) :=
  ⟨⟨by decide, (AddProduct_qty sampleClient (stubWorld 201 "") (sampleProduct (-1))).2.1
      (by decide) (by decide) (by decide) (by decide)⟩,
   ⟨by decide, (AddProduct_qty sampleClient (stubWorld 201 "") (sampleProduct 0)).2.2
      (by decide) (by decide) (by decide) (by decide) (by decide) (by decide)⟩⟩

/-! ## Address and payment sub-checks -/

theorem validateAddress_eq_none (a : types.Address) (role : String) :
    Client.validateAddress a role = none ↔ addressValid a = true := by
  unfold Client.validateAddress addressValid
  simp only [TrimSpace_eq_empty]
  cases blank a.Name <;> cases blank a.Phone <;> cases blank a.Line1 <;>
    cases blank a.PostCode <;> cases blank a.City <;> cases blank a.Country <;>
    cases blank a.State <;> simp

theorem validatePayment_eq_none (p : types.Payment) :
    Client.validatePayment p = none ↔ paymentValid p = true := by
  unfold Client.validatePayment paymentValid
  simp only [TrimSpace_eq_empty]
  cases blank p.Name <;> cases blank p.Type_ <;> cases blank p.LastFour <;>
    cases blank p.ExpMonth <;> cases blank p.ExpYear <;> simp

theorem addressValid_of_fields (a : types.Address)
    (h : ∀ f : AddressField, blank (f.get a) = false) : addressValid a = true := by
  have h1 := h AddressField.name
  have h2 := h AddressField.phone
  have h3 := h AddressField.line1
  have h4 := h AddressField.postCode
  have h5 := h AddressField.city
  have h6 := h AddressField.country
  have h7 := h AddressField.state
  simp only [AddressField.get] at h1 h2 h3 h4 h5 h6 h7
  simp [addressValid, h1, h2, h3, h4, h5, h6, h7]

theorem required_message (role : String) (f : AddressField) :
    role ++ " " ++ f.label ++ " is required" = role ++ (" " ++ f.label ++ " is required") := by
  simp only [String.append_assoc]

theorem validateAddress_field (a : types.Address) (role : String) (f : AddressField)
    (hf : blank (f.get a) = true)
    (hrest : ∀ f' : AddressField, f' ≠ f → blank (f'.get a) = false) :
    Client.validateAddress a role = some (role ++ " " ++ f.label ++ " is required") := by
  have h1 := hrest AddressField.name
  have h2 := hrest AddressField.phone
  have h3 := hrest AddressField.line1
  have h4 := hrest AddressField.postCode
  have h5 := hrest AddressField.city
  have h6 := hrest AddressField.country
  have h7 := hrest AddressField.state
  rw [required_message]
  cases f <;> simp only [AddressField.get, ne_eq, not_true_eq_false, reduceCtorEq,
      not_false_eq_true, false_implies, true_implies] at hf h1 h2 h3 h4 h5 h6 h7 <;>
    simp [Client.validateAddress, TrimSpace_eq_empty, AddressField.label, *]

/-! ## Missing address fields -/

/-- C2: for `AddProfile` and for `AddTask`, for each role `r` (billing,
shipping) and each required address field `f`: when field `f` of the `r`
address is blank and every other required field of the record is non-blank,
the operation returns the error "<r> <f> is required" (and sends nothing). -/
theorem address_field_required (c : Client) (w : World) (r : Role) (f : AddressField) :
    (∀ p : types.AddProfile, blank (f.get (r.ofProfile p)) = true →
      blank p.Token = false → paymentValid p.Payment = true →
      (∀ r' f', (r', f') ≠ (r, f) → blank (AddressField.get f' (Role.ofProfile r' p)) = false) →
      c.AddProfile w p = ⟨some (r.label ++ " " ++ f.label ++ " is required"), []⟩) ∧
    (∀ t : types.AddTask, blank (f.get (r.ofTask t)) = true →
      blank t.Token = false → blank t.Bot = false → blank t.Site = false →
      blank t.Mode = false → blank t.Input = false → blank t.Proxy = false →
      paymentValid t.Profile.Payment = true →
      (∀ r' f', (r', f') ≠ (r, f) → blank (AddressField.get f' (Role.ofTask r' t)) = false) →
      c.AddTask w t = ⟨some (r.label ++ " " ++ f.label ++ " is required"), []⟩) := by
  constructor
  · intro p hf ht _ hrest
    cases r with
    | billing =>
      have hb := validateAddress_field p.Billing "billing" f hf
        (fun f' hne => hrest Role.billing f' (by simp [hne]))
      simp [Client.AddProfile, TrimSpace_eq_empty, ht, hb, Role.label]
    | shipping =>
      have hb := (validateAddress_eq_none p.Billing "billing").2
        (addressValid_of_fields _ (fun f' => hrest Role.billing f' (by simp)))
      have hs := validateAddress_field p.Shipping "shipping" f hf
        (fun f' hne => hrest Role.shipping f' (by simp [hne]))
      simp [Client.AddProfile, TrimSpace_eq_empty, ht, hb, hs, Role.label]
  · intro t hf ht hbot hsite hmode hinput _ _ hrest
    cases r with
    | billing =>
      have hb := validateAddress_field t.Profile.Billing "billing" f hf
        (fun f' hne => hrest Role.billing f' (by simp [hne]))
      simp [Client.AddTask, TrimSpace_eq_empty, ht, hbot, hsite, hmode, hinput, hb, Role.label]
    | shipping =>
      have hb := (validateAddress_eq_none t.Profile.Billing "billing").2
        (addressValid_of_fields _ (fun f' => hrest Role.billing f' (by simp)))
      have hs := validateAddress_field t.Profile.Shipping "shipping" f hf
        (fun f' hne => hrest Role.shipping f' (by simp [hne]))
      simp [Client.AddTask, TrimSpace_eq_empty, ht, hbot, hsite, hmode, hinput, hb, hs,
        Role.label]

/-- Witness for C2: a profile lacking the shipping post code is rejected with
"shipping postCode is required", a task lacking the billing post code with
"billing postCode is required". -/
theorem address_field_required_witness :
    sampleClient.AddProfile (stubWorld 200 "") profileNoShippingPostCode =
      ⟨some "shipping postCode is required", []⟩ ∧
    sampleClient.AddTask (stubWorld 200 "") taskNoBillingPostCode =
      ⟨some "billing postCode is required", []⟩ :=
  ⟨(address_field_required sampleClient (stubWorld 200 "") Role.shipping
      AddressField.postCode).1 profileNoShippingPostCode (by decide) (by decide) (by decide)
      (fun r' f' h => by cases r' <;> cases f' <;> first | rfl | exact absurd rfl h),
   (address_field_required sampleClient (stubWorld 200 "") Role.billing
      AddressField.postCode).2 taskNoBillingPostCode (by decide) (by decide) (by decide)
      (by decide) (by decide) (by decide) (by decide) (by decide)
      (fun r' f' h => by cases r' <;> cases f' <;> first | rfl | exact absurd rfl h)⟩

/-! ## Webhook validation -/

theorem append_ne_of_data (a e b : String) (h : (b.data.take a.length == a.data) = false) :
    a ++ e ≠ b := by
  intro heq
  subst heq
  have htake : (a ++ e).data.take a.length = a.data := by
    rw [String.data_append]
    exact List.take_left' rfl
  rw [htake] at h
  exact absurd h (by simp)

theorem fieldLoop_eq_none (i : Nat) (fs : List types.Field) (j : Nat) :
    Webhook.fieldLoop i j fs = none ↔ fieldsOk fs = true := by
  induction fs generalizing j with
  | nil => simp [Webhook.fieldLoop, fieldsOk]
  | cons f rest ih =>
    have ih2 := ih (j + 1)
    simp only [fieldsOk, List.all_cons] at ih2 ⊢
    simp only [Webhook.fieldLoop, TrimSpace_eq_empty]
    cases blank f.Name <;> cases blank f.Value <;> simp [ih2]

theorem embedLoop_cons_ok (i : Nat) (e : types.Embed) (rest : List types.Embed)
    (h : embedOk e = true) :
    Webhook.embedLoop i (e :: rest) = Webhook.embedLoop (i + 1) rest := by
  simp only [embedOk, Bool.and_eq_true, decide_eq_true_eq] at h
  have hf := (fieldLoop_eq_none i e.Fields 0).2 h.2
  simp [Webhook.embedLoop, hf, Nat.not_lt.2 h.1]

theorem embedLoop_eq_none (es : List types.Embed) (i : Nat) :
    Webhook.embedLoop i es = none ↔ es.all embedOk = true := by
  induction es generalizing i with
  | nil => simp [Webhook.embedLoop]
  | cons e rest ih =>
    cases hok : embedOk e with
    | true => rw [embedLoop_cons_ok i e rest hok, ih]; simp [hok]
    | false =>
      simp only [List.all_cons, hok, Bool.false_and, Bool.false_eq_true, iff_false]
      simp only [embedOk, Bool.and_eq_false_iff, decide_eq_false_iff_not, not_le] at hok
      intro h
      simp only [Webhook.embedLoop] at h
      split at h
      · simp at h
      · rename_i hlen
        cases hfl : Webhook.fieldLoop i 0 e.Fields with
        | some err => simp [hfl] at h
        | none =>
          have := (fieldLoop_eq_none i e.Fields 0).1 hfl
          rcases hok with hok | hok
          · exact hlen hok
          · simp [this] at hok

theorem embedLoop_exceeds (es : List types.Embed) (k i : Nat) (e : types.Embed)
    (hi : es[i]? = some e) (hlen : e.Fields.length > 25)
    (hpre : ∀ j, j < i → ∀ e', es[j]? = some e' → embedOk e' = true) :
    Webhook.embedLoop k es =
      some ("embed " ++ fmtIndex (k + i) ++ " exceeds the maximum of 25 fields") := by
  induction es generalizing k i with
  | nil => simp at hi
  | cons e0 rest ih =>
    cases i with
    | zero =>
      simp only [List.getElem?_cons_zero, Option.some.injEq] at hi
      subst hi
      simp [Webhook.embedLoop, hlen]
    | succ i' =>
      have h0 : embedOk e0 = true := hpre 0 (Nat.succ_pos _) e0 (by simp)
      rw [embedLoop_cons_ok k e0 rest h0]
      have := ih (k + 1) i' (by simpa using hi)
        (fun j hj e' he' => hpre (j + 1) (Nat.succ_lt_succ hj) e' (by simpa using he'))
      rw [this]
      have : k + 1 + i' = k + (i' + 1) := by omega
      rw [this]

theorem validate_of_nonempty (p : types.Webhook) (hne : 0 < p.Embeds.length)
    (hle : p.Embeds.length ≤ 10) :
    Webhook.validate p = Webhook.embedLoop 0 p.Embeds := by
  simp [Webhook.validate, hne, Nat.not_lt.2 hle]

theorem Webhook_of_validate_none (c : Client) (w : World) (url : String) (p : types.Webhook)
    (h : Webhook.validate p = none) : c.Webhook w url p = Webhook.send w url p := by
  simp [Client.Webhook, h]

theorem Webhook_of_validate_some (c : Client) (w : World) (url : String) (p : types.Webhook)
    (err : String) (h : Webhook.validate p = some err) :
    c.Webhook w url p = ⟨(none, some err), []⟩ := by
  simp [Client.Webhook, h]

theorem validate_no_embeds (p : types.Webhook) (h0 : p.Embeds = []) :
    Webhook.validate p =
      if contentBlank p = true then
        some "webhook payload must contain either content or at least one embed"
      else none := by
  unfold Webhook.validate contentBlank
  rw [h0]
  cases p.Content with
  | none => simp
  | some s =>
    cases hb : blank s with
    | true => simp [TrimSpace_eq_empty, hb]
    | false => simp [TrimSpace_eq_empty, hb, Webhook.embedLoop]

theorem send_ret_ne_presence (w : World) (url : String) (p : types.Webhook) :
    (Webhook.send w url p).ret ≠
      (none, some "webhook payload must contain either content or at least one embed") := by
  unfold Webhook.send
  split
  · simpa using append_ne_of_data _ _ _ (by decide)
  · split
    · simpa using append_ne_of_data _ _ _ (by decide)
    · dsimp only
      split
      · simpa using append_ne_of_data _ _ _ (by decide)
      · split
        · simpa using append_ne_of_data _ _ _ (by decide)
        · split
          · simpa using append_ne_of_data _ _ _ (by decide)
          · simp

theorem send_trace_head (w : World) (url : String) (p : types.Webhook) :
    (Webhook.send w url p).trace.head? = some (Event.marshal (Payload.webhook p)) := by
  unfold Webhook.send
  split
  · rfl
  · split
    · rfl
    · dsimp only
      split
      · rfl
      · split
        · rfl
        · split <;> rfl

theorem NewRequest_post (w : World) (url body u : String)
    (hr : w.ParseURL url = Except.ok u) :
    NewRequest w "POST" url body = Except.ok ⟨"POST", u, [], body⟩ := by
  have hvalid : validMethod "POST" = true := by decide
  have hne : ("POST" = "") = False := by decide
  simp [NewRequest, hne, hvalid, hr]

theorem send_dispatch (w : World) (url : String) (p : types.Webhook) (jsonData u : String)
    (hm : w.Marshal (Payload.webhook p) = Except.ok jsonData)
    (hr : w.ParseURL url = Except.ok u) :
    (Webhook.send w url p).trace.get? 1 =
        some (Event.dispatch ⟨"POST", u, [("Content-Type", "application/json")], jsonData⟩) ∧
      dispatches (Webhook.send w url p).trace = 1 := by
  unfold Webhook.send
  simp only [hm, NewRequest_post w url jsonData u hr]
  split
  · exact ⟨rfl, rfl⟩
  · split
    · exact ⟨rfl, rfl⟩
    · split <;> exact ⟨rfl, rfl⟩

/-- C3: for a payload with zero embeds, `Webhook` returns the validation error
"webhook payload must contain either content or at least one embed" with a nil
response exactly when the content is absent or blank (and then nothing is
serialised or sent); when the content is non-blank the payload passes
validation: the call continues with serialisation, and once serialisation and
request construction succeed the request is sent, once, to the given URL as
`http.NewRequest` parsed it. -/
theorem Webhook_no_embeds (c : Client) (w : World) (url : String) (p : types.Webhook)
    (h0 : p.Embeds = []) :
    ((c.Webhook w url p).ret =
        (none, some "webhook payload must contain either content or at least one embed") ↔
      contentBlank p = true) ∧
    (contentBlank p = true →
      c.Webhook w url p =
        ⟨(none, some "webhook payload must contain either content or at least one embed"),
          []⟩) ∧
    (contentBlank p = false →
      Webhook.validate p = none ∧
      c.Webhook w url p = Webhook.send w url p ∧
      (c.Webhook w url p).trace.head? = some (Event.marshal (Payload.webhook p)) ∧
      ∀ jsonData u, w.Marshal (Payload.webhook p) = Except.ok jsonData →
        w.ParseURL url = Except.ok u →
        (c.Webhook w url p).trace.get? 1 =
          some (Event.dispatch
            ⟨"POST", u, [("Content-Type", "application/json")], jsonData⟩) ∧
        dispatches (c.Webhook w url p).trace = 1) := by
  have hv := validate_no_embeds p h0
  cases hb : contentBlank p with
  | true =>
    rw [hb] at hv
    have hW := Webhook_of_validate_some c w url p _ hv
    refine ⟨?_, ?_, ?_⟩
    · rw [hW]
      simp
    · intro _
      exact hW
    · intro h
      exact absurd h (by simp)
  | false =>
    rw [hb] at hv
    have hW := Webhook_of_validate_none c w url p hv
    refine ⟨?_, ?_, ?_⟩
    · rw [hW]
      simpa using send_ret_ne_presence w url p
    · intro h
      exact absurd h (by simp)
    · intro _
      rw [hW]
      exact ⟨hv, rfl, send_trace_head w url p, fun j u hm hr => send_dispatch w url p j u hm hr⟩

/-- Witness for C3: with zero embeds, a white-space-only content is rejected
and the content "hello" is serialised and sent. -/
theorem Webhook_no_embeds_witness :
    sampleClient.Webhook (stubWorld 204 "") "https://hook.example/1" ⟨some " \n", []⟩ =
        ⟨(none, some "webhook payload must contain either content or at least one embed"),
          []⟩ ∧
    (sampleClient.Webhook (stubWorld 204 "") "https://hook.example/1"
        ⟨some "hello", []⟩).trace.head? =
      some (Event.marshal (Payload.webhook ⟨some "hello", []⟩)) :=
  ⟨(Webhook_no_embeds sampleClient (stubWorld 204 "") "https://hook.example/1"
      ⟨some " \n", []⟩ rfl).2.1 (by decide),
   ((Webhook_no_embeds sampleClient (stubWorld 204 "") "https://hook.example/1"
      ⟨some "hello", []⟩ rfl).2.2 (by decide)).2.2.1⟩

/-- C4, counterexample: a payload without content and with exactly one embed
is rejected by validation when that embed has a field with an empty name. -/
theorem Webhook_one_embed_counterexample :
    contentBlank payloadBlankFieldName = true ∧
    payloadBlankFieldName.Embeds.length = 1 ∧
    Webhook.validate payloadBlankFieldName = some "embed 0, field 0: name is required" ∧
    sampleClient.Webhook (stubWorld 204 "") "https://hook.example/1" payloadBlankFieldName =
      ⟨(none, some "embed 0, field 0: name is required"), []⟩ := by
  decide

/-- C4, amended: for a payload whose content is absent or blank and whose
embeds are exactly one embed, validation accepts the payload exactly when that
embed has at most 25 fields, all with non-blank name and value; it then returns
no validation error and continues with serialisation and sending. -/
theorem Webhook_one_embed (c : Client) (w : World) (url : String) (p : types.Webhook)
    (e : types.Embed) (_hc : contentBlank p = true) (he : p.Embeds = [e]) :
    (Webhook.validate p = none ↔ embedOk e = true) ∧
    (embedOk e = true →
      c.Webhook w url p = Webhook.send w url p ∧
      (c.Webhook w url p).trace.head? = some (Event.marshal (Payload.webhook p)) ∧
      ∀ jsonData u, w.Marshal (Payload.webhook p) = Except.ok jsonData →
        w.ParseURL url = Except.ok u →
        (c.Webhook w url p).trace.get? 1 =
          some (Event.dispatch
            ⟨"POST", u, [("Content-Type", "application/json")], jsonData⟩) ∧
        dispatches (c.Webhook w url p).trace = 1) := by
  have hv : Webhook.validate p = Webhook.embedLoop 0 p.Embeds :=
    validate_of_nonempty p (by simp [he]) (by simp [he])
  have hiff : Webhook.validate p = none ↔ embedOk e = true := by
    rw [hv, embedLoop_eq_none, he]
    simp
  refine ⟨hiff, fun hok => ?_⟩
  have hW := Webhook_of_validate_none c w url p (hiff.2 hok)
  rw [hW]
  exact ⟨rfl, send_trace_head w url p, fun j u hm hr => send_dispatch w url p j u hm hr⟩

/-- Witness for C4 (amended): a payload without content and with one embed of
one sample field passes validation. -/
theorem Webhook_one_embed_witness :
    Webhook.validate (payloadOf 1 1) = none :=
  ((Webhook_one_embed sampleClient (stubWorld 204 "") "https://hook.example/1" (payloadOf 1 1)
      (embedWith [sampleField]) (by decide) rfl).1).2 (by decide)

/-- C5: the embed-count ceiling is exactly 10.  A payload with more than 10
embeds is rejected with "discord webhooks support a maximum of 10 embeds"
whatever its content and its embeds hold, and nothing is serialised or sent; a
payload with between 1 and 10 embeds, each with at most 25 fields all with
non-blank name and value, passes validation and goes on to serialisation. -/
theorem Webhook_embed_ceiling (c : Client) (w : World) (url : String) (p : types.Webhook) :
    (10 < p.Embeds.length →
      c.Webhook w url p =
        ⟨(none, some "discord webhooks support a maximum of 10 embeds"), []⟩) ∧
    (1 ≤ p.Embeds.length → p.Embeds.length ≤ 10 → (∀ e ∈ p.Embeds, embedOk e = true) →
      Webhook.validate p = none ∧ c.Webhook w url p = Webhook.send w url p) := by
  constructor
  · intro h
    apply Webhook_of_validate_some
    have hpos : 0 < p.Embeds.length := by omega
    simp [Webhook.validate, hpos, h]
  · intro h1 h10 hall
    have hv : Webhook.validate p = none := by
      rw [validate_of_nonempty p (by omega) h10, embedLoop_eq_none]
      simpa using hall
    exact ⟨hv, Webhook_of_validate_none c w url p hv⟩

/-- Witness for C5: 11 embeds are rejected, exactly 10 embeds of 25 fields
each are accepted. -/
theorem Webhook_embed_ceiling_witness :
    sampleClient.Webhook (stubWorld 204 "") "https://hook.example/1" (payloadOf 11 1) =
      ⟨(none, some "discord webhooks support a maximum of 10 embeds"), []⟩ ∧
    Webhook.validate (payloadOf 10 25) = none :=
  ⟨(Webhook_embed_ceiling sampleClient (stubWorld 204 "") "https://hook.example/1"
      (payloadOf 11 1)).1 (by decide),
   ((Webhook_embed_ceiling sampleClient (stubWorld 204 "") "https://hook.example/1"
      (payloadOf 10 25)).2 (by decide) (by decide) (by decide)).1⟩

/-- C6: the per-embed field ceiling is exactly 25 and the rejection names the
embed.  In a payload with at most 10 embeds, when the embed at index `i` has
more than 25 fields and every embed before it has at most 25 fields, all with
non-blank name and value, `Webhook` returns "embed i exceeds the maximum of 25
fields" (whatever the fields of embed `i` hold) and sends nothing; an embed
with exactly 25 fields, all non-blank, does not stop the loop over the embeds,
and a payload made of such an embed alone passes validation. -/
theorem Webhook_field_ceiling (c : Client) (w : World) (url : String) :
    (∀ (p : types.Webhook) (i : Nat) (e : types.Embed), p.Embeds.length ≤ 10 →
      p.Embeds[i]? = some e → 25 < e.Fields.length →
      (∀ j, j < i → ∀ e', p.Embeds[j]? = some e' → embedOk e' = true) →
      c.Webhook w url p =
        ⟨(none, some ("embed " ++ fmtIndex i ++ " exceeds the maximum of 25 fields")), []⟩) ∧
    (∀ (e : types.Embed), e.Fields.length = 25 → fieldsOk e.Fields = true →
      (∀ (k : Nat) (rest : List types.Embed),
        Webhook.embedLoop k (e :: rest) = Webhook.embedLoop (k + 1) rest) ∧
      ∀ content, Webhook.validate ⟨content, [e]⟩ = none) := by
  constructor
  · intro p i e h10 hi hlen hpre
    apply Webhook_of_validate_some
    have hpos : 0 < p.Embeds.length := by
      rcases List.getElem?_eq_some.1 hi with ⟨hlt, _⟩
      omega
    rw [validate_of_nonempty p hpos h10, embedLoop_exceeds p.Embeds 0 i e hi hlen hpre]
    simp
  · intro e h25 hok
    have hE : embedOk e = true := by simp [embedOk, h25, hok]
    refine ⟨fun k rest => embedLoop_cons_ok k e rest hE, fun content => ?_⟩
    rw [validate_of_nonempty _ (by simp) (by simp), embedLoop_eq_none]
    simp [hE]

/-- Witness for C6: embed 1 with 26 fields (the first one blank) after a well
formed embed 0 is reported as "embed 1 exceeds the maximum of 25 fields"; one
embed of exactly 25 sample fields passes. -/
theorem Webhook_field_ceiling_witness :
    sampleClient.Webhook (stubWorld 204 "") "https://hook.example/1" payloadSecondEmbedTooLong =
      ⟨(none, some "embed 1 exceeds the maximum of 25 fields"), []⟩ ∧
    Webhook.validate ⟨none, [embedWith (List.replicate 25 sampleField)]⟩ = none :=
  ⟨(Webhook_field_ceiling sampleClient (stubWorld 204 "") "https://hook.example/1").1
      payloadSecondEmbedTooLong 1 (embedWith (⟨"", "", none⟩ :: List.replicate 25 sampleField))
      (by decide) rfl (by decide)
      (fun j hj e' he' => by
        have hj0 : j = 0 := by omega
        subst hj0
        cases he'
        decide),
   ((Webhook_field_ceiling sampleClient (stubWorld 204 "") "https://hook.example/1").2
      (embedWith (List.replicate 25 sampleField)) (by decide) (by decide)).2 none⟩

/-! ## Validation before transport -/

theorem makeRequest_trace_head (c : Client) (w : World) (method path : String)
    (payload : Payload) (result : Bool) :
    (c.makeRequest w method path payload result).trace.head? = some (Event.marshal payload) := by
  unfold Client.makeRequest
  split
  · rfl
  · split
    · rfl
    · dsimp only
      split
      · rfl
      · split
        · rfl
        · split
          · split <;> rfl
          · rfl

theorem makeRequest_ne_rejection (c : Client) (w : World) (method path : String)
    (payload : Payload) (result : Bool) (err : Option String) :
    c.makeRequest w method path payload result ≠ ⟨err, []⟩ := by
  intro h
  have := makeRequest_trace_head c w method path payload result
  rw [h] at this
  simp at this

/-- C7: a task whose proxy is empty or white space only and whose other
required fields are all valid is rejected with "proxy is required"; the effect
trace is empty, so `makeRequest` is not called and no remote call is attempted. -/
theorem AddTask_proxy_required (c : Client) (w : World) (t : types.AddTask)
    (hproxy : blank t.Proxy = true)
    (ht : blank t.Token = false) (hbot : blank t.Bot = false) (hsite : blank t.Site = false)
    (hmode : blank t.Mode = false) (hinput : blank t.Input = false)
    (hb : addressValid t.Profile.Billing = true) (hs : addressValid t.Profile.Shipping = true)
    (hp : paymentValid t.Profile.Payment = true) :
    c.AddTask w t = ⟨some "proxy is required", []⟩ ∧
    c.AddTask w t ≠ c.makeRequest w "POST" "/api/sdk/add-task" (Payload.task t) false ∧
    dispatches (c.AddTask w t).trace = 0 := by
  have hb2 := (validateAddress_eq_none t.Profile.Billing "billing").2 hb
  have hs2 := (validateAddress_eq_none t.Profile.Shipping "shipping").2 hs
  have hp2 := (validatePayment_eq_none t.Profile.Payment).2 hp
  have h : c.AddTask w t = ⟨some "proxy is required", []⟩ := by
    simp [Client.AddTask, TrimSpace_eq_empty, ht, hbot, hsite, hmode, hinput, hb2, hs2, hp2,
      hproxy]
  refine ⟨h, ?_, ?_⟩
  · rw [h]
    exact fun heq => makeRequest_ne_rejection c w _ _ _ _ _ heq.symm
  · rw [h]
    rfl

/-- Witness for C7: the sample task with an empty proxy. -/
theorem AddTask_proxy_required_witness :
    sampleClient.AddTask (stubWorld 200 "") (sampleTask "") = ⟨some "proxy is required", []⟩ :=
  (AddTask_proxy_required sampleClient (stubWorld 200 "") (sampleTask "") (by decide)
    (by decide) (by decide) (by decide) (by decide) (by decide) (by decide) (by decide)
    (by decide)).1

theorem validate_eq_none_iff (p : types.Webhook) :
    Webhook.validate p = none ↔ webhookValid p = true := by
  by_cases hne : 0 < p.Embeds.length
  · have hemp : p.Embeds.isEmpty = false := by
      cases hE : p.Embeds with
      | nil => simp [hE] at hne
      | cons e es => rfl
    by_cases hle : p.Embeds.length ≤ 10
    · rw [validate_of_nonempty p hne hle, embedLoop_eq_none]
      simp [webhookValid, hemp, hle]
    · have hgt : 10 < p.Embeds.length := by omega
      simp [Webhook.validate, webhookValid, hne, hgt]
  · have h0 : p.Embeds = [] := List.length_eq_zero.1 (by omega)
    rw [validate_no_embeds p h0]
    cases hb : contentBlank p <;> simp [webhookValid, h0, hb]

theorem nonNegative_any (v : Option Int) :
    v.any (fun x => decide (x < 0)) = !nonNegative v := by
  cases v with
  | none => rfl
  | some x =>
    simp only [Option.any_some, nonNegative]
    by_cases hx : x < 0
    · simp [hx]
    · have : 0 ≤ x := by omega
      simp [hx, this]

theorem AddProduct_rejects (p : types.AddProduct) (hv : productValid p = false) :
    ∃ msg, ∀ (c : Client) (w : World), c.AddProduct w p = ⟨some msg, []⟩ := by
  by_cases h1 : blank p.Token = true
  · exact ⟨"user access token is required", fun c w => by simp [Client.AddProduct, TrimSpace_eq_empty, h1]⟩
  by_cases h2 : blank p.Name = true
  · exact ⟨"product name is required", fun c w => by simp [Client.AddProduct, TrimSpace_eq_empty, h1, h2]⟩
  by_cases h3 : blank p.SKU = true
  · exact ⟨"product SKU is required", fun c w => by simp [Client.AddProduct, TrimSpace_eq_empty, h1, h2, h3]⟩
  by_cases h4 : p.Qty < 0
  · exact ⟨"product quantity must be a non-negative number", fun c w => by simp [Client.AddProduct, TrimSpace_eq_empty, h1, h2, h3, h4]⟩
  by_cases h5 : nonNegative p.Value = false
  · exact ⟨"product value must be a non-negative number", fun c w => by
      simp [Client.AddProduct, TrimSpace_eq_empty, h1, h2, h3, h4, nonNegative_any, h5]⟩
  by_cases h6 : nonNegative p.Spent = false
  · exact ⟨"product spent must be a non-negative number", fun c w => by
      simp [Client.AddProduct, TrimSpace_eq_empty, h1, h2, h3, h4, nonNegative_any, h5, h6]⟩
  have h4' : 0 ≤ p.Qty := by omega
  simp [productValid, h1, h2, h3, h4', h5, h6] at hv

theorem AddOrder_rejects (o : types.AddOrder) (hv : orderValid o = false) :
    ∃ msg, ∀ (c : Client) (w : World), c.AddOrder w o = ⟨some msg, []⟩ := by
  by_cases h1 : blank o.Token = true
  · exact ⟨"user access token is required", fun c w => by simp [Client.AddOrder, TrimSpace_eq_empty, h1]⟩
  by_cases h2 : blank o.Name = true
  · exact ⟨"order name is required", fun c w => by simp [Client.AddOrder, TrimSpace_eq_empty, h1, h2]⟩
  by_cases h3 : blank o.Status = true
  · exact ⟨"order status is required", fun c w => by simp [Client.AddOrder, TrimSpace_eq_empty, h1, h2, h3]⟩
  by_cases h4 : blank o.OrderNumber = true
  · exact ⟨"order number is required", fun c w => by simp [Client.AddOrder, TrimSpace_eq_empty, h1, h2, h3, h4]⟩
  simp [orderValid, h1, h2, h3, h4] at hv

theorem AddProfile_rejects (p : types.AddProfile) (hv : profileValid p = false) :
    ∃ msg, ∀ (c : Client) (w : World), c.AddProfile w p = ⟨some msg, []⟩ := by
  by_cases h1 : blank p.Token = true
  · exact ⟨"user access token is required", fun c w => by simp [Client.AddProfile, TrimSpace_eq_empty, h1]⟩
  cases hb : Client.validateAddress p.Billing "billing" with
  | some e => exact ⟨e, fun c w => by simp [Client.AddProfile, TrimSpace_eq_empty, h1, hb]⟩
  | none =>
    cases hs : Client.validateAddress p.Shipping "shipping" with
    | some e =>
      exact ⟨e, fun c w => by simp [Client.AddProfile, TrimSpace_eq_empty, h1, hb, hs]⟩
    | none =>
      cases hp : Client.validatePayment p.Payment with
      | some e =>
        exact ⟨e, fun c w => by simp [Client.AddProfile, TrimSpace_eq_empty, h1, hb, hs, hp]⟩
      | none =>
        rw [validateAddress_eq_none] at hb hs
        rw [validatePayment_eq_none] at hp
        simp [profileValid, h1, hb, hs, hp] at hv

theorem AddTask_rejects (t : types.AddTask) (hv : taskValid t = false) :
    ∃ msg, ∀ (c : Client) (w : World), c.AddTask w t = ⟨some msg, []⟩ := by
  by_cases h1 : blank t.Token = true
  · exact ⟨"user access token is required", fun c w => by simp [Client.AddTask, TrimSpace_eq_empty, h1]⟩
  by_cases h2 : blank t.Bot = true
  · exact ⟨"bot name is required", fun c w => by simp [Client.AddTask, TrimSpace_eq_empty, h1, h2]⟩
  by_cases h3 : blank t.Site = true
  · exact ⟨"site is required", fun c w => by simp [Client.AddTask, TrimSpace_eq_empty, h1, h2, h3]⟩
  by_cases h4 : blank t.Mode = true
  · exact ⟨"mode is required", fun c w => by simp [Client.AddTask, TrimSpace_eq_empty, h1, h2, h3, h4]⟩
  by_cases h5 : blank t.Input = true
  · exact ⟨"input is required", fun c w => by simp [Client.AddTask, TrimSpace_eq_empty, h1, h2, h3, h4, h5]⟩
  cases hb : Client.validateAddress t.Profile.Billing "billing" with
  | some e =>
    exact ⟨e, fun c w => by
      simp [Client.AddTask, TrimSpace_eq_empty, h1, h2, h3, h4, h5, hb]⟩
  | none =>
    cases hs : Client.validateAddress t.Profile.Shipping "shipping" with
    | some e =>
      exact ⟨e, fun c w => by
        simp [Client.AddTask, TrimSpace_eq_empty, h1, h2, h3, h4, h5, hb, hs]⟩
    | none =>
      cases hp : Client.validatePayment t.Profile.Payment with
      | some e =>
        exact ⟨e, fun c w => by
          simp [Client.AddTask, TrimSpace_eq_empty, h1, h2, h3, h4, h5, hb, hs, hp]⟩
      | none =>
        by_cases h6 : blank t.Proxy = true
        · exact ⟨"proxy is required", fun c w => by
            simp [Client.AddTask, TrimSpace_eq_empty, h1, h2, h3, h4, h5, hb, hs, hp, h6]⟩
        rw [validateAddress_eq_none] at hb hs
        rw [validatePayment_eq_none] at hp
        simp [taskValid, h1, h2, h3, h4, h5, hb, hs, hp, h6] at hv

theorem Webhook_rejects (p : types.Webhook) (hv : webhookValid p = false) :
    ∃ msg, ∀ (c : Client) (w : World) (url : String),
      c.Webhook w url p = ⟨(none, some msg), []⟩ := by
  cases h : Webhook.validate p with
  | some e => exact ⟨e, fun c w url => Webhook_of_validate_some c w url p e h⟩
  | none =>
    rw [validate_eq_none_iff] at h
    rw [h] at hv
    exact absurd hv (by simp)

/-- C8: validation errors are detected before any network activity.  For each
of `AddProduct`, `AddOrder`, `AddProfile`, `AddTask` and `Webhook`, a record that
violates a validation rule determines one error message, and for every client
configuration and every behaviour of the encoder, the transport and the decoder
the operation returns that error with an empty effect trace: nothing is
serialised and nothing is dispatched. -/
theorem validation_before_transport :
    (∀ p : types.AddProduct, productValid p = false →
      ∃ msg, ∀ (c : Client) (w : World), c.AddProduct w p = ⟨some msg, []⟩) ∧
    (∀ o : types.AddOrder, orderValid o = false →
      ∃ msg, ∀ (c : Client) (w : World), c.AddOrder w o = ⟨some msg, []⟩) ∧
    (∀ p : types.AddProfile, profileValid p = false →
      ∃ msg, ∀ (c : Client) (w : World), c.AddProfile w p = ⟨some msg, []⟩) ∧
    (∀ t : types.AddTask, taskValid t = false →
      ∃ msg, ∀ (c : Client) (w : World), c.AddTask w t = ⟨some msg, []⟩) ∧
    (∀ p : types.Webhook, webhookValid p = false →
      ∃ msg, ∀ (c : Client) (w : World) (url : String),
        c.Webhook w url p = ⟨(none, some msg), []⟩) :=
  ⟨AddProduct_rejects, AddOrder_rejects, AddProfile_rejects, AddTask_rejects, Webhook_rejects⟩

/-- Witness for C8: one invalid record for each of the five operations. -/
theorem validation_before_transport_witness :
    (∃ msg, ∀ (c : Client) (w : World),
      c.AddProduct w (sampleProduct (-1)) = ⟨some msg, []⟩) ∧
    (∃ msg, ∀ (c : Client) (w : World),
      c.AddOrder w ⟨"tok", "Shoe", " ", "A-1", []⟩ = ⟨some msg, []⟩) ∧
    (∃ msg, ∀ (c : Client) (w : World),
      c.AddProfile w profileNoShippingPostCode = ⟨some msg, []⟩) ∧
    (∃ msg, ∀ (c : Client) (w : World), c.AddTask w (sampleTask "") = ⟨some msg, []⟩) ∧
    (∃ msg, ∀ (c : Client) (w : World) (url : String),
      c.Webhook w url (payloadOf 11 1) = ⟨(none, some msg), []⟩) :=
  ⟨validation_before_transport.1 _ (by decide),
   validation_before_transport.2.1 _ (by decide),
   validation_before_transport.2.2.1 _ (by decide),
   validation_before_transport.2.2.2.1 _ (by decide),
   validation_before_transport.2.2.2.2 _ (by decide)⟩

/-! ## Status classification -/

/-- C9: status classification in `makeRequest`.  When serialisation, request
construction and dispatch succeed and no result is requested, `makeRequest`
returns nil exactly when 200 <= status <= 299, whatever the response body;
for every other status `N` it returns "request failed with status: N"; in both
cases exactly one request is dispatched and no decode is attempted. -/
theorem makeRequest_status (c : Client) (w : World) (method path : String) (payload : Payload)
    (jsonData : String) (req0 : Request) (resp : Response)
    (hm : w.Marshal payload = Except.ok jsonData)
    (hr : NewRequest w method (c.baseURL ++ path) jsonData = Except.ok req0)
    (hd : w.Do (requestOf c req0) = Except.ok resp) :
    ((c.makeRequest w method path payload false).ret = none ↔
      200 ≤ resp.StatusCode ∧ resp.StatusCode ≤ 299) ∧
    (¬ (200 ≤ resp.StatusCode ∧ resp.StatusCode ≤ 299) →
      (c.makeRequest w method path payload false).ret =
        some ("request failed with status: " ++ fmtInt resp.StatusCode)) ∧
    (c.makeRequest w method path payload false).trace =
      [Event.marshal payload, Event.dispatch (requestOf c req0)] ∧
    dispatches (c.makeRequest w method path payload false).trace = 1 ∧
    decodes (c.makeRequest w method path payload false).trace = 0 := by
  unfold requestOf at hd
  by_cases hs : resp.StatusCode < 200 ∨ resp.StatusCode ≥ 300
  · have hout : ¬ (200 ≤ resp.StatusCode ∧ resp.StatusCode ≤ 299) := by omega
    have h : c.makeRequest w method path payload false =
        ⟨some ("request failed with status: " ++ fmtInt resp.StatusCode),
          [Event.marshal payload, Event.dispatch (requestOf c req0)]⟩ := by
      simp [Client.makeRequest, hm, hr, hd, hs, requestOf]
    rw [h]
    exact ⟨by simp [hout], fun _ => rfl, rfl, rfl, rfl⟩
  · have hin : 200 ≤ resp.StatusCode ∧ resp.StatusCode ≤ 299 := by omega
    have h : c.makeRequest w method path payload false =
        ⟨none, [Event.marshal payload, Event.dispatch (requestOf c req0)]⟩ := by
      simp [Client.makeRequest, hm, hr, hd, hs, requestOf]
    rw [h]
    exact ⟨by simp [hin], fun hne => absurd hin hne, rfl, rfl, rfl⟩

/-- Witness for C9: status 201 with an empty body gives no error; status 500
gives "request failed with status: 500". -/
theorem makeRequest_status_witness :
    (sampleClient.makeRequest (stubWorld 201 "") "POST" "/api/sdk/add-order"
        (Payload.order sampleOrder) false).ret = none ∧
    (sampleClient.makeRequest (stubWorld 500 "oops") "POST" "/api/sdk/add-order"
        (Payload.order sampleOrder) false).ret = some "request failed with status: 500" :=
  ⟨(makeRequest_status sampleClient (stubWorld 201 "") "POST" "/api/sdk/add-order"
      (Payload.order sampleOrder) "{}"
      ⟨"POST", "https://www.lunartools.co/api/sdk/add-order", [], "{}"⟩ ⟨201, ""⟩
      rfl rfl rfl).1.2 (by decide),
   (makeRequest_status sampleClient (stubWorld 500 "oops") "POST" "/api/sdk/add-order"
      (Payload.order sampleOrder) "{}"
      ⟨"POST", "https://www.lunartools.co/api/sdk/add-order", [], "{}"⟩ ⟨500, "oops"⟩
      rfl rfl rfl).2.1 (by decide)⟩

/-! ## Profile validity -/

/-- C10: `AddProfile` accepts a profile (its result is that of `makeRequest`)
exactly when the token is non-blank, the billing address is valid, the shipping
address is valid and the payment is valid, an address being valid when its
seven required fields are non-blank and a payment when its five fields are
non-blank; otherwise it returns an error without any effect.  Replacing
`Line2` in either address changes neither the verdict nor the error. -/
theorem AddProfile_accepts_iff (c : Client) (w : World) (p : types.AddProfile) :
    (c.AddProfile w p =
        c.makeRequest w "POST" "/api/sdk/add-profile" (Payload.profile p) false ↔
      (blank p.Token = false ∧ addressValid p.Billing = true ∧
        addressValid p.Shipping = true ∧ paymentValid p.Payment = true)) ∧
    (∀ a : types.Address, addressValid a = true ↔
      (blank a.Name = false ∧ blank a.Phone = false ∧ blank a.Line1 = false ∧
        blank a.PostCode = false ∧ blank a.City = false ∧ blank a.Country = false ∧
        blank a.State = false)) ∧
    (∀ m : types.Payment, paymentValid m = true ↔
      (blank m.Name = false ∧ blank m.Type_ = false ∧ blank m.LastFour = false ∧
        blank m.ExpMonth = false ∧ blank m.ExpYear = false)) ∧
    (profileValid p = false → ∃ msg, c.AddProfile w p = ⟨some msg, []⟩) ∧
    (∀ l1 l2 : Option String,
      (profileValid (profileWithLine2 p l1 l2) = profileValid p) ∧
      (profileValid p = false →
        c.AddProfile w (profileWithLine2 p l1 l2) = c.AddProfile w p)) := by
  have hacc : profileValid p = true →
      c.AddProfile w p =
        c.makeRequest w "POST" "/api/sdk/add-profile" (Payload.profile p) false := by
    intro hv
    simp only [profileValid, Bool.and_eq_true, Bool.not_eq_true'] at hv
    obtain ⟨⟨⟨ht, hb⟩, hs⟩, hp⟩ := hv
    rw [← validateAddress_eq_none _ "billing"] at hb
    rw [← validateAddress_eq_none _ "shipping"] at hs
    rw [← validatePayment_eq_none] at hp
    simp [Client.AddProfile, TrimSpace_eq_empty, ht, hb, hs, hp]
  have hline : ∀ l1 l2 : Option String, ∀ (c' : Client) (w' : World),
      profileValid p = false →
      c'.AddProfile w' (profileWithLine2 p l1 l2) = c'.AddProfile w' p := by
    intro l1 l2 c' w' hv
    have hB : ∀ role, Client.validateAddress (withLine2 p.Billing l1) role =
        Client.validateAddress p.Billing role := fun _ => rfl
    have hS : ∀ role, Client.validateAddress (withLine2 p.Shipping l2) role =
        Client.validateAddress p.Shipping role := fun _ => rfl
    by_cases h1 : blank p.Token = true
    · simp [Client.AddProfile, profileWithLine2, TrimSpace_eq_empty, h1]
    cases hb : Client.validateAddress p.Billing "billing" with
    | some e => simp [Client.AddProfile, profileWithLine2, TrimSpace_eq_empty, h1, hB, hb]
    | none =>
      cases hs : Client.validateAddress p.Shipping "shipping" with
      | some e =>
        simp [Client.AddProfile, profileWithLine2, TrimSpace_eq_empty, h1, hB, hS, hb, hs]
      | none =>
        cases hp : Client.validatePayment p.Payment with
        | some e =>
          simp [Client.AddProfile, profileWithLine2, TrimSpace_eq_empty, h1, hB, hS, hb, hs, hp]
        | none =>
          rw [validateAddress_eq_none] at hb hs
          rw [validatePayment_eq_none] at hp
          simp [profileValid, h1, hb, hs, hp] at hv
  refine ⟨?_, ?_, ?_, ?_, ?_⟩
  · constructor
    · intro heq
      cases hv : profileValid p with
      | true => simpa [profileValid, and_assoc] using hv
      | false =>
        obtain ⟨msg, hmsg⟩ := AddProfile_rejects p hv
        rw [hmsg c w] at heq
        exact absurd heq.symm (makeRequest_ne_rejection c w _ _ _ _ _)
    · intro hv
      exact hacc (by simpa [profileValid, and_assoc] using hv)
  · intro a
    simp [addressValid, and_assoc]
  · intro m
    simp [paymentValid, and_assoc]
  · intro hv
    obtain ⟨msg, hmsg⟩ := AddProfile_rejects p hv
    exact ⟨msg, hmsg c w⟩
  · intro l1 l2
    exact ⟨rfl, hline l1 l2 c w⟩

/-- Witness for C10: the sample profile is accepted; with a second address
line added, the profile lacking the shipping post code is rejected as before. -/
theorem AddProfile_accepts_iff_witness :
    sampleClient.AddProfile (stubWorld 201 "") sampleProfile =
      sampleClient.makeRequest (stubWorld 201 "") "POST" "/api/sdk/add-profile"
        (Payload.profile sampleProfile) false ∧
    sampleClient.AddProfile (stubWorld 201 "")
        (profileWithLine2 profileNoShippingPostCode (some "Apt 2") none) =
      sampleClient.AddProfile (stubWorld 201 "") profileNoShippingPostCode :=
  ⟨(AddProfile_accepts_iff sampleClient (stubWorld 201 "") sampleProfile).1.2 (by decide),
   ((AddProfile_accepts_iff sampleClient (stubWorld 201 "")
      profileNoShippingPostCode).2.2.2.2 (some "Apt 2") none).2 (by decide)⟩

/-! ## The embedded profile of a task -/

/-- C11: a task's embedded profile is validated like a standalone profile.
For a profile with a non-blank token and a task with non-blank token, bot,
site, mode and input that carry the same billing address, shipping address and
payment: when `AddProfile` rejects the profile with message `m`, `AddTask`
rejects the task with the same message `m`; and when the profile passes
validation, the address and payment checks of the task pass too, so that the
task's outcome depends on its proxy alone. -/
theorem task_profile_same_rules (c c' : Client) (w w' : World) (p : types.AddProfile)
    (t : types.AddTask)
    (hp : blank p.Token = false) (ht : blank t.Token = false) (hbot : blank t.Bot = false)
    (hsite : blank t.Site = false) (hmode : blank t.Mode = false)
    (hinput : blank t.Input = false)
    (hB : t.Profile.Billing = p.Billing) (hS : t.Profile.Shipping = p.Shipping)
    (hP : t.Profile.Payment = p.Payment) :
    (∀ m, c.AddProfile w p = ⟨some m, []⟩ → c'.AddTask w' t = ⟨some m, []⟩) ∧
    (c.AddProfile w p =
        c.makeRequest w "POST" "/api/sdk/add-profile" (Payload.profile p) false →
      Client.validateAddress t.Profile.Billing "billing" = none ∧
      Client.validateAddress t.Profile.Shipping "shipping" = none ∧
      Client.validatePayment t.Profile.Payment = none ∧
      c'.AddTask w' t =
        if blank t.Proxy = true then ⟨some "proxy is required", []⟩
        else c'.makeRequest w' "POST" "/api/sdk/add-task" (Payload.task t) false) := by
  have hrej : ∀ e, c.AddProfile w p = ⟨some e, []⟩ →
      c.AddProfile w p ≠
        c.makeRequest w "POST" "/api/sdk/add-profile" (Payload.profile p) false := by
    intro e he
    rw [he]
    exact fun heq => makeRequest_ne_rejection c w _ _ _ _ _ heq.symm
  cases hb : Client.validateAddress p.Billing "billing" with
  | some e =>
    have h1 : c.AddProfile w p = ⟨some e, []⟩ := by
      simp [Client.AddProfile, TrimSpace_eq_empty, hp, hb]
    have h2 : c'.AddTask w' t = ⟨some e, []⟩ := by
      simp [Client.AddTask, TrimSpace_eq_empty, ht, hbot, hsite, hmode, hinput, hB, hb]
    refine ⟨fun m hm => ?_, fun hacc => absurd hacc (hrej e h1)⟩
    rw [h1] at hm
    rw [h2]
    exact hm
  | none =>
    cases hs : Client.validateAddress p.Shipping "shipping" with
    | some e =>
      have h1 : c.AddProfile w p = ⟨some e, []⟩ := by
        simp [Client.AddProfile, TrimSpace_eq_empty, hp, hb, hs]
      have h2 : c'.AddTask w' t = ⟨some e, []⟩ := by
        simp [Client.AddTask, TrimSpace_eq_empty, ht, hbot, hsite, hmode, hinput, hB, hS, hb,
          hs]
      refine ⟨fun m hm => ?_, fun hacc => absurd hacc (hrej e h1)⟩
      rw [h1] at hm
      rw [h2]
      exact hm
    | none =>
      cases hpay : Client.validatePayment p.Payment with
      | some e =>
        have h1 : c.AddProfile w p = ⟨some e, []⟩ := by
          simp [Client.AddProfile, TrimSpace_eq_empty, hp, hb, hs, hpay]
        have h2 : c'.AddTask w' t = ⟨some e, []⟩ := by
          simp [Client.AddTask, TrimSpace_eq_empty, ht, hbot, hsite, hmode, hinput, hB, hS,
            hP, hb, hs, hpay]
        refine ⟨fun m hm => ?_, fun hacc => absurd hacc (hrej e h1)⟩
        rw [h1] at hm
        rw [h2]
        exact hm
      | none =>
        have h1 : c.AddProfile w p =
            c.makeRequest w "POST" "/api/sdk/add-profile" (Payload.profile p) false := by
          simp [Client.AddProfile, TrimSpace_eq_empty, hp, hb, hs, hpay]
        refine ⟨fun m hm => ?_, fun _ => ?_⟩
        · rw [h1] at hm
          exact absurd hm (makeRequest_ne_rejection c w _ _ _ _ _)
        · rw [hB, hS, hP]
          refine ⟨hb, hs, hpay, ?_⟩
          simp [Client.AddTask, TrimSpace_eq_empty, ht, hbot, hsite, hmode, hinput, hB, hS,
            hP, hb, hs, hpay]

/-- Witness for C11: the profile and the task that both carry the address
without post code as billing address are rejected with the same message. -/
theorem task_profile_same_rules_witness :
    sampleClient.AddTask (stubWorld 200 "") taskNoBillingPostCode =
      ⟨some "billing postCode is required", []⟩ :=
  (task_profile_same_rules sampleClient sampleClient (stubWorld 200 "") (stubWorld 200 "")
    ⟨"tok", addressNoPostCode, sampleAddress, samplePayment⟩ taskNoBillingPostCode
    (by decide) (by decide) (by decide) (by decide) (by decide) (by decide) rfl rfl rfl).1
    "billing postCode is required" (by decide)

/-! ## Client construction -/

/-- C12: `NewClient` keeps the API key of the configuration, takes
"https://www.lunartools.co" as base URL when the configured base URL is the
empty string and the configured base URL unchanged otherwise (a configured
base URL of white space only is kept), and sets the request timeout to 30
seconds whatever the configuration. -/
theorem NewClient_fields (config : types.Config) :
    (NewClient config).apiKey = config.APIKey ∧
    (config.BaseURL = "" → (NewClient config).baseURL = "https://www.lunartools.co") ∧
    (config.BaseURL ≠ "" → (NewClient config).baseURL = config.BaseURL) ∧
    (NewClient config).timeout = 30 * Second ∧
    (NewClient config).timeout = 30000000000 := by
  refine ⟨rfl, ?_, ?_, rfl, rfl⟩
  · intro h
    simp [NewClient, h]
  · intro h
    simp [NewClient, h]

/-- Witness for C12: an empty base URL gives the production host, a base URL
of two spaces is kept. -/
theorem NewClient_fields_witness :
    (NewClient ⟨"key", ""⟩).baseURL = "https://www.lunartools.co" ∧
    (NewClient ⟨"key", "  "⟩).baseURL = "  " :=
  ⟨(NewClient_fields ⟨"key", ""⟩).2.1 rfl, (NewClient_fields ⟨"key", "  "⟩).2.2.1 (by decide)⟩

/-! ## Request shape -/

theorem requestOf_post (c : Client) (u jsonData : String) :
    requestOf c ⟨"POST", u, [], jsonData⟩ = recordRequest c u jsonData := by
  have h1 : CanonicalMIMEHeaderKey "Content-Type" = "Content-Type" := by decide
  have h2 : CanonicalMIMEHeaderKey "x-api-key" = "X-Api-Key" := by decide
  simp [requestOf, recordRequest, Request.SetHeader, h1, h2]

theorem makeRequest_trace (c : Client) (w : World) (method path : String) (payload : Payload)
    (jsonData : String) (req0 : Request) (hm : w.Marshal payload = Except.ok jsonData)
    (hr : NewRequest w method (c.baseURL ++ path) jsonData = Except.ok req0) :
    (c.makeRequest w method path payload false).trace =
      [Event.marshal payload, Event.dispatch (requestOf c req0)] := by
  unfold Client.makeRequest
  simp only [hm, hr, requestOf]
  split
  · rfl
  · split <;> rfl

theorem recordRequest_headers (c : Client) (u jsonData : String) :
    (recordRequest c u jsonData).GetHeader "Content-Type" = some "application/json" ∧
    (recordRequest c u jsonData).GetHeader "x-api-key" = some c.apiKey := by
  have h1 : CanonicalMIMEHeaderKey "Content-Type" = "Content-Type" := by decide
  have h2 : CanonicalMIMEHeaderKey "x-api-key" = "X-Api-Key" := by decide
  simp [recordRequest, Request.GetHeader, h1, h2]

theorem webhookRequest_headers (url jsonData : String) :
    (webhookRequest url jsonData).GetHeader "Content-Type" = some "application/json" ∧
    (webhookRequest url jsonData).GetHeader "x-api-key" = none := by
  have h1 : CanonicalMIMEHeaderKey "Content-Type" = "Content-Type" := by decide
  have h2 : CanonicalMIMEHeaderKey "x-api-key" = "X-Api-Key" := by decide
  simp [webhookRequest, Request.GetHeader, h1, h2]

theorem AddProduct_accepts (c : Client) (w : World) (p : types.AddProduct)
    (hv : productValid p = true) :
    c.AddProduct w p =
      c.makeRequest w "POST" "/api/sdk/add-product" (Payload.product p) false := by
  simp only [productValid, Bool.and_eq_true, Bool.not_eq_true', decide_eq_true_eq] at hv
  obtain ⟨⟨⟨⟨⟨h1, h2⟩, h3⟩, h4⟩, h5⟩, h6⟩ := hv
  have h4' : ¬ p.Qty < 0 := by omega
  simp [Client.AddProduct, TrimSpace_eq_empty, h1, h2, h3, h4', nonNegative_any, h5, h6]

theorem AddOrder_accepts (c : Client) (w : World) (o : types.AddOrder)
    (hv : orderValid o = true) :
    c.AddOrder w o = c.makeRequest w "POST" "/api/sdk/add-order" (Payload.order o) false := by
  simp only [orderValid, Bool.and_eq_true, Bool.not_eq_true'] at hv
  obtain ⟨⟨⟨h1, h2⟩, h3⟩, h4⟩ := hv
  simp [Client.AddOrder, TrimSpace_eq_empty, h1, h2, h3, h4]

theorem AddProfile_accepts (c : Client) (w : World) (p : types.AddProfile)
    (hv : profileValid p = true) :
    c.AddProfile w p =
      c.makeRequest w "POST" "/api/sdk/add-profile" (Payload.profile p) false := by
  simp only [profileValid, Bool.and_eq_true, Bool.not_eq_true'] at hv
  obtain ⟨⟨⟨ht, hb⟩, hs⟩, hp⟩ := hv
  rw [← validateAddress_eq_none _ "billing"] at hb
  rw [← validateAddress_eq_none _ "shipping"] at hs
  rw [← validatePayment_eq_none] at hp
  simp [Client.AddProfile, TrimSpace_eq_empty, ht, hb, hs, hp]

theorem AddTask_accepts (c : Client) (w : World) (t : types.AddTask)
    (hv : taskValid t = true) :
    c.AddTask w t = c.makeRequest w "POST" "/api/sdk/add-task" (Payload.task t) false := by
  simp only [taskValid, Bool.and_eq_true, Bool.not_eq_true'] at hv
  obtain ⟨⟨⟨⟨⟨⟨⟨⟨h1, h2⟩, h3⟩, h4⟩, h5⟩, hb⟩, hs⟩, hp⟩, h6⟩ := hv
  rw [← validateAddress_eq_none _ "billing"] at hb
  rw [← validateAddress_eq_none _ "shipping"] at hs
  rw [← validatePayment_eq_none] at hp
  simp [Client.AddTask, TrimSpace_eq_empty, h1, h2, h3, h4, h5, hb, hs, hp, h6]

theorem webhookRequest_eq (u jsonData : String) :
    Request.SetHeader ⟨"POST", u, [], jsonData⟩ "Content-Type" "application/json" =
      webhookRequest u jsonData := by
  have h1 : CanonicalMIMEHeaderKey "Content-Type" = "Content-Type" := by decide
  simp [webhookRequest, Request.SetHeader, h1]

theorem send_trace_take (w : World) (url : String) (p : types.Webhook) (jsonData u : String)
    (hm : w.Marshal (Payload.webhook p) = Except.ok jsonData)
    (hr : w.ParseURL url = Except.ok u) :
    (Webhook.send w url p).trace.take 2 =
      [Event.marshal (Payload.webhook p), Event.dispatch (webhookRequest u jsonData)] := by
  unfold Webhook.send
  simp only [hm, NewRequest_post w url jsonData u hr, webhookRequest_eq]
  split
  · rfl
  · split
    · rfl
    · split <;> rfl

/-- C13, counterexample: with the base URL "HTTP://Example.COM" the valid
sample order is sent to "http://Example.COM/api/sdk/add-order", the URL as
`http.NewRequest` parsed it, which is not the string base URL followed by
"/api/sdk/add-order". -/
theorem request_shape_counterexample :
    orderValid sampleOrder = true ∧
    upperSchemeClient.baseURL ++ "/api/sdk/add-order" =
      "HTTP://Example.COM/api/sdk/add-order" ∧
    (upperSchemeClient.AddOrder (stubWorld 201 "") sampleOrder).trace =
      [Event.marshal (Payload.order sampleOrder),
        Event.dispatch ⟨"POST", "http://Example.COM/api/sdk/add-order",
          [("Content-Type", "application/json"), ("X-Api-Key", "key")], "{}"⟩] ∧
    "http://Example.COM/api/sdk/add-order" ≠
      upperSchemeClient.baseURL ++ "/api/sdk/add-order" := by
  decide

/-- C13, amended: request shape.  For a valid record, once serialisation
succeeds, `AddProduct`, `AddOrder`, `AddProfile` and `AddTask` each build one
`POST` request from the URL string made of the client's base URL followed by
"/api/sdk/add-product", "/api/sdk/add-order", "/api/sdk/add-profile" and
"/api/sdk/add-task" respectively: the request's URL is the URL `u` that
`http.NewRequest` parses from that string (the string itself whenever parsing
leaves it unchanged), its body is the serialised record and its headers are
Content-Type = "application/json" and x-api-key = the configured API key.  For
a valid webhook payload `Webhook` builds a `POST` request from exactly the
caller-supplied URL string in the same way, whatever the client, with
Content-Type = "application/json" as its only header, hence no x-api-key. -/
theorem request_shape (c : Client) (w : World) (jsonData u : String) :
    (∀ p : types.AddProduct, productValid p = true →
      w.Marshal (Payload.product p) = Except.ok jsonData →
      w.ParseURL (c.baseURL ++ "/api/sdk/add-product") = Except.ok u →
      (c.AddProduct w p).trace =
        [Event.marshal (Payload.product p), Event.dispatch (recordRequest c u jsonData)]) ∧
    (∀ o : types.AddOrder, orderValid o = true →
      w.Marshal (Payload.order o) = Except.ok jsonData →
      w.ParseURL (c.baseURL ++ "/api/sdk/add-order") = Except.ok u →
      (c.AddOrder w o).trace =
        [Event.marshal (Payload.order o), Event.dispatch (recordRequest c u jsonData)]) ∧
    (∀ p : types.AddProfile, profileValid p = true →
      w.Marshal (Payload.profile p) = Except.ok jsonData →
      w.ParseURL (c.baseURL ++ "/api/sdk/add-profile") = Except.ok u →
      (c.AddProfile w p).trace =
        [Event.marshal (Payload.profile p), Event.dispatch (recordRequest c u jsonData)]) ∧
    (∀ t : types.AddTask, taskValid t = true →
      w.Marshal (Payload.task t) = Except.ok jsonData →
      w.ParseURL (c.baseURL ++ "/api/sdk/add-task") = Except.ok u →
      (c.AddTask w t).trace =
        [Event.marshal (Payload.task t), Event.dispatch (recordRequest c u jsonData)]) ∧
    (∀ (url : String) (p : types.Webhook), webhookValid p = true →
      w.Marshal (Payload.webhook p) = Except.ok jsonData →
      w.ParseURL url = Except.ok u →
      (c.Webhook w url p).trace.take 2 =
        [Event.marshal (Payload.webhook p), Event.dispatch (webhookRequest u jsonData)] ∧
      ∀ c' : Client, c'.Webhook w url p = c.Webhook w url p) ∧
    ((recordRequest c u jsonData).Method = "POST" ∧
      (recordRequest c u jsonData).URL = u ∧
      (recordRequest c u jsonData).Body = jsonData ∧
      (recordRequest c u jsonData).GetHeader "Content-Type" = some "application/json" ∧
      (recordRequest c u jsonData).GetHeader "x-api-key" = some c.apiKey) ∧
    ((webhookRequest u jsonData).Method = "POST" ∧
      (webhookRequest u jsonData).URL = u ∧
      (webhookRequest u jsonData).Body = jsonData ∧
      (webhookRequest u jsonData).Header = [("Content-Type", "application/json")] ∧
      (webhookRequest u jsonData).GetHeader "Content-Type" = some "application/json" ∧
      (webhookRequest u jsonData).GetHeader "x-api-key" = none) := by
  refine ⟨?_, ?_, ?_, ?_, ?_, ?_, ?_⟩
  · intro p hv hm hr
    rw [AddProduct_accepts c w p hv,
      makeRequest_trace c w _ _ _ jsonData _ hm (NewRequest_post w _ jsonData u hr),
      requestOf_post]
  · intro o hv hm hr
    rw [AddOrder_accepts c w o hv,
      makeRequest_trace c w _ _ _ jsonData _ hm (NewRequest_post w _ jsonData u hr),
      requestOf_post]
  · intro p hv hm hr
    rw [AddProfile_accepts c w p hv,
      makeRequest_trace c w _ _ _ jsonData _ hm (NewRequest_post w _ jsonData u hr),
      requestOf_post]
  · intro t hv hm hr
    rw [AddTask_accepts c w t hv,
      makeRequest_trace c w _ _ _ jsonData _ hm (NewRequest_post w _ jsonData u hr),
      requestOf_post]
  · intro url p hv hm hr
    refine ⟨?_, fun c' => rfl⟩
    rw [Webhook_of_validate_none c w url p ((validate_eq_none_iff p).2 hv)]
    exact send_trace_take w url p jsonData u hm hr
  · exact ⟨rfl, rfl, rfl, (recordRequest_headers c u jsonData).1,
      (recordRequest_headers c u jsonData).2⟩
  · exact ⟨rfl, rfl, rfl, rfl, (webhookRequest_headers u jsonData).1,
      (webhookRequest_headers u jsonData).2⟩

/-- Witness for C13 (amended): the request of the sample order under the
default base URL and under the base URL "HTTP://Example.COM", and the request
of a webhook payload with content "hello". -/
theorem request_shape_witness :
    (sampleClient.AddOrder (stubWorld 201 "") sampleOrder).trace =
      [Event.marshal (Payload.order sampleOrder),
        Event.dispatch ⟨"POST", "https://www.lunartools.co/api/sdk/add-order",
          [("Content-Type", "application/json"), ("X-Api-Key", "key")], "{}"⟩] ∧
    (upperSchemeClient.AddOrder (stubWorld 201 "") sampleOrder).trace =
      [Event.marshal (Payload.order sampleOrder),
        Event.dispatch ⟨"POST", "http://Example.COM/api/sdk/add-order",
          [("Content-Type", "application/json"), ("X-Api-Key", "key")], "{}"⟩] ∧
    (sampleClient.Webhook (stubWorld 204 "") "https://hook.example/1"
        ⟨some "hello", []⟩).trace.take 2 =
      [Event.marshal (Payload.webhook ⟨some "hello", []⟩),
        Event.dispatch ⟨"POST", "https://hook.example/1",
          [("Content-Type", "application/json")], "{}"⟩] :=
  ⟨(request_shape sampleClient (stubWorld 201 "") "{}"
      "https://www.lunartools.co/api/sdk/add-order").2.1 sampleOrder (by decide) rfl rfl,
   (request_shape upperSchemeClient (stubWorld 201 "") "{}"
      "http://Example.COM/api/sdk/add-order").2.1 sampleOrder (by decide) rfl rfl,
   ((request_shape sampleClient (stubWorld 204 "") "{}"
      "https://hook.example/1").2.2.2.2.1 "https://hook.example/1"
      ⟨some "hello", []⟩ (by decide) rfl rfl).1⟩

/-! ## Webhook result classification -/

theorem send_answered (w : World) (url : String) (p : types.Webhook) (jsonData u : String)
    (resp : Response) (hm : w.Marshal (Payload.webhook p) = Except.ok jsonData)
    (hr : w.ParseURL url = Except.ok u)
    (hd : w.Do (webhookRequest u jsonData) = Except.ok resp) :
    (Webhook.send w url p).ret =
      if resp.StatusCode < 200 ∨ resp.StatusCode ≥ 300 then
        (none, some ("webhook request failed with status: " ++ fmtInt resp.StatusCode))
      else
        match w.DecodeWebhook resp.Body with
        | Except.error err => (none, some ("failed to decode response: " ++ err))
        | Except.ok webhookResp => (some webhookResp, none) := by
  rw [← webhookRequest_eq] at hd
  unfold Webhook.send
  simp only [hm, NewRequest_post w url jsonData u hr, hd]
  split
  · rfl
  · split <;> rfl

theorem send_ret_one_nil (w : World) (url : String) (p : types.Webhook) :
    ((Webhook.send w url p).ret.1 = none ∧ (Webhook.send w url p).ret.2 ≠ none) ∨
    ((Webhook.send w url p).ret.1 ≠ none ∧ (Webhook.send w url p).ret.2 = none) := by
  unfold Webhook.send
  split
  · simp
  · split
    · simp
    · dsimp only
      split
      · simp
      · split
        · simp
        · split <;> simp

/-- C14: webhook result classification.  For a valid payload whose request is
dispatched and answered, `Webhook` returns a response and a nil error exactly
when the status is within 200..299 and the body decodes; a status `N` outside
200..299 gives nil and "webhook request failed with status: N"; a status within
200..299 whose body fails to decode with error `e` gives nil and "failed to
decode response: e".  On every path, for every payload, exactly one of the
returned response and the returned error is nil. -/
theorem Webhook_result (c : Client) (w : World) (url : String) (p : types.Webhook) :
    (∀ (jsonData u : String) (resp : Response), webhookValid p = true →
      w.Marshal (Payload.webhook p) = Except.ok jsonData →
      w.ParseURL url = Except.ok u →
      w.Do (webhookRequest u jsonData) = Except.ok resp →
      (((c.Webhook w url p).ret.1 ≠ none ∧ (c.Webhook w url p).ret.2 = none) ↔
        ((200 ≤ resp.StatusCode ∧ resp.StatusCode ≤ 299) ∧
          ∃ r, w.DecodeWebhook resp.Body = Except.ok r)) ∧
      (∀ r, 200 ≤ resp.StatusCode ∧ resp.StatusCode ≤ 299 →
        w.DecodeWebhook resp.Body = Except.ok r → (c.Webhook w url p).ret = (some r, none)) ∧
      (¬ (200 ≤ resp.StatusCode ∧ resp.StatusCode ≤ 299) →
        (c.Webhook w url p).ret =
          (none, some ("webhook request failed with status: " ++ fmtInt resp.StatusCode))) ∧
      (∀ e, 200 ≤ resp.StatusCode ∧ resp.StatusCode ≤ 299 →
        w.DecodeWebhook resp.Body = Except.error e →
        (c.Webhook w url p).ret = (none, some ("failed to decode response: " ++ e)))) ∧
    (((c.Webhook w url p).ret.1 = none ∧ (c.Webhook w url p).ret.2 ≠ none) ∨
      ((c.Webhook w url p).ret.1 ≠ none ∧ (c.Webhook w url p).ret.2 = none)) := by
  constructor
  · intro jsonData u resp hv hm hr hd
    rw [Webhook_of_validate_none c w url p ((validate_eq_none_iff p).2 hv),
      send_answered w url p jsonData u resp hm hr hd]
    by_cases hs : resp.StatusCode < 200 ∨ resp.StatusCode ≥ 300
    · have hout : ¬ (200 ≤ resp.StatusCode ∧ resp.StatusCode ≤ 299) := by omega
      rw [if_pos hs]
      exact ⟨by simp [hout], fun r hin => absurd hin hout, fun _ => rfl,
        fun e hin => absurd hin hout⟩
    · have hin : 200 ≤ resp.StatusCode ∧ resp.StatusCode ≤ 299 := by omega
      rw [if_neg hs]
      cases hdec : w.DecodeWebhook resp.Body with
      | error err =>
        refine ⟨by simp, fun r _ hr' => ?_, fun hne => absurd hin hne, fun e _ he => ?_⟩
        · cases hr'
        · cases he
          rfl
      | ok r0 =>
        refine ⟨by simp [hin], fun r _ hr' => ?_, fun hne => absurd hin hne, fun e _ he => ?_⟩
        · cases hr'
          rfl
        · cases he
  · cases hv : Webhook.validate p with
    | some err =>
      rw [Webhook_of_validate_some c w url p err hv]
      simp
    | none =>
      rw [Webhook_of_validate_none c w url p hv]
      exact send_ret_one_nil w url p

/-- Witness for C14: against the stub, status 200 with body "{}" gives a
response, status 404 gives the status error and status 200 with an empty body
gives the decode error. -/
theorem Webhook_result_witness :
    (sampleClient.Webhook (stubWorld 200 "{}") "https://hook.example/1"
        ⟨some "hello", []⟩).ret = (some ⟨[]⟩, none) ∧
    (sampleClient.Webhook (stubWorld 404 "{}") "https://hook.example/1"
        ⟨some "hello", []⟩).ret = (none, some "webhook request failed with status: 404") ∧
    (sampleClient.Webhook (stubWorld 200 "") "https://hook.example/1"
        ⟨some "hello", []⟩).ret = (none, some "failed to decode response: EOF") :=
  ⟨((Webhook_result sampleClient (stubWorld 200 "{}") "https://hook.example/1"
      ⟨some "hello", []⟩).1 "{}" "https://hook.example/1" ⟨200, "{}"⟩ (by decide) rfl rfl rfl).2.1 ⟨[]⟩ (by decide) rfl,
   ((Webhook_result sampleClient (stubWorld 404 "{}") "https://hook.example/1"
      ⟨some "hello", []⟩).1 "{}" "https://hook.example/1" ⟨404, "{}"⟩ (by decide) rfl rfl rfl).2.2.1 (by decide),
   ((Webhook_result sampleClient (stubWorld 200 "") "https://hook.example/1"
      ⟨some "hello", []⟩).1 "{}" "https://hook.example/1" ⟨200, ""⟩ (by decide) rfl rfl rfl).2.2.2 "EOF" (by decide)
      rfl⟩

/-! ## First violated rule -/

theorem firstViolation_cons_true (m : String) (rs : List (Bool × String)) :
    firstViolation ((true, m) :: rs) = some m := by
  simp [firstViolation]

theorem firstViolation_cons_false (m : String) (rs : List (Bool × String)) :
    firstViolation ((false, m) :: rs) = firstViolation rs := by
  simp [firstViolation]

theorem firstViolation_append (a b : List (Bool × String)) :
    firstViolation (a ++ b) = (firstViolation a).or (firstViolation b) := by
  induction a with
  | nil => simp [firstViolation]
  | cons r rs ih =>
    obtain ⟨v, m⟩ := r
    cases v with
    | true => simp [firstViolation]
    | false =>
      rw [List.cons_append, firstViolation_cons_false, firstViolation_cons_false, ih]

theorem firstViolation_mem (rs : List (Bool × String)) (m : String)
    (h : firstViolation rs = some m) : m ∈ rs.map Prod.snd := by
  induction rs with
  | nil => simp [firstViolation] at h
  | cons r rest ih =>
    obtain ⟨v, m'⟩ := r
    cases v with
    | true =>
      rw [firstViolation_cons_true] at h
      cases h
      simp
    | false =>
      rw [firstViolation_cons_false] at h
      simp [ih h]

theorem presentNegative_any (v : Option Int) :
    v.any (fun x => decide (x < 0)) = presentNegative v := by
  cases v <;> rfl

theorem presentNegative_eq (v : Option Int) : presentNegative v = !nonNegative v := by
  rw [← presentNegative_any, nonNegative_any]

/-- C15: `AddProduct` reports the first violated rule in the order token,
name, SKU, qty, value, spent.  Its result is the message of the first rule of
that list the record violates, with nothing serialised or sent, and the result
of `makeRequest` when no rule is violated; a product fails validation exactly
when some rule is violated.  The value and spent rules are violated only by a
present negative number: an absent value and a present 0 are accepted. -/
theorem AddProduct_first_violation (c : Client) (w : World) (p : types.AddProduct) :
    (c.AddProduct w p =
      match firstViolation (productRules p) with
      | some msg => ⟨some msg, []⟩
      | none => c.makeRequest w "POST" "/api/sdk/add-product" (Payload.product p) false) ∧
    (productValid p = false ↔ (firstViolation (productRules p)).isSome = true) ∧
    (productRules p).map Prod.snd = productMessages ∧
    presentNegative none = false ∧ presentNegative (some 0) = false ∧
    (∀ v : Int, presentNegative (some v) = true ↔ v < 0) := by
  have hmain : c.AddProduct w p =
      match firstViolation (productRules p) with
      | some msg => ⟨some msg, []⟩
      | none => c.makeRequest w "POST" "/api/sdk/add-product" (Payload.product p) false := by
    unfold Client.AddProduct productRules
    simp only [TrimSpace_eq_empty, presentNegative_any]
    cases blank p.Token
    · cases blank p.Name
      · cases blank p.SKU
        · by_cases hq : p.Qty < 0
          · simp [hq, firstViolation]
          · cases presentNegative p.Value
            · cases presentNegative p.Spent <;> simp [hq, firstViolation]
            · simp [hq, firstViolation]
        · simp [firstViolation]
      · simp [firstViolation]
    · simp [firstViolation]
  refine ⟨hmain, ?_, rfl, rfl, rfl, fun v => by simp [presentNegative]⟩
  constructor
  · intro hv
    obtain ⟨msg, hmsg⟩ := AddProduct_rejects p hv
    cases hf : firstViolation (productRules p) with
    | some m => rfl
    | none =>
      have h := hmsg c w
      rw [hmain, hf] at h
      exact absurd h (makeRequest_ne_rejection c w _ _ _ _ _)
  · intro hsome
    cases hv : productValid p with
    | false => rfl
    | true =>
      have h := AddProduct_accepts c w p hv
      cases hf : firstViolation (productRules p) with
      | none => simp [hf] at hsome
      | some m =>
        rw [hmain, hf] at h
        exact absurd h.symm (makeRequest_ne_rejection c w _ _ _ _ _)

/-- Witness for C15: a product with a blank name, a negative quantity and a
negative value reports the name rule, the first one violated. -/
theorem AddProduct_first_violation_witness :
    sampleClient.AddProduct (stubWorld 201 "") productManyViolations =
      ⟨some "product name is required", []⟩ :=
  (AddProduct_first_violation sampleClient (stubWorld 201 "") productManyViolations).1

theorem validateAddress_eq_firstViolation (a : types.Address) (role : String) :
    Client.validateAddress a role = firstViolation (addressRules role a) := by
  unfold Client.validateAddress addressRules
  simp only [TrimSpace_eq_empty]
  cases blank a.Name <;> cases blank a.Phone <;> cases blank a.Line1 <;>
    cases blank a.PostCode <;> cases blank a.City <;> cases blank a.Country <;>
    cases blank a.State <;> simp [firstViolation]

theorem validatePayment_eq_firstViolation (m : types.Payment) :
    Client.validatePayment m = firstViolation (paymentRules m) := by
  unfold Client.validatePayment paymentRules
  simp only [TrimSpace_eq_empty]
  cases blank m.Name <;> cases blank m.Type_ <;> cases blank m.LastFour <;>
    cases blank m.ExpMonth <;> cases blank m.ExpYear <;> simp [firstViolation]

theorem embeddedProfileRules_firstViolation (t : types.AddTask) :
    firstViolation (embeddedProfileRules t) =
      ((Client.validateAddress t.Profile.Billing "billing").or
        (Client.validateAddress t.Profile.Shipping "shipping")).or
        (Client.validatePayment t.Profile.Payment) := by
  rw [embeddedProfileRules, firstViolation_append, firstViolation_append,
    validateAddress_eq_firstViolation, validateAddress_eq_firstViolation,
    validatePayment_eq_firstViolation]

theorem embeddedProfileRules_isSome (t : types.AddTask)
    (h : addressValid t.Profile.Billing = false ∨ addressValid t.Profile.Shipping = false ∨
      paymentValid t.Profile.Payment = false) :
    ∃ m, firstViolation (embeddedProfileRules t) = some m := by
  rw [embeddedProfileRules_firstViolation]
  cases hb : Client.validateAddress t.Profile.Billing "billing" with
  | some e => exact ⟨e, rfl⟩
  | none =>
    cases hs : Client.validateAddress t.Profile.Shipping "shipping" with
    | some e => exact ⟨e, rfl⟩
    | none =>
      cases hp : Client.validatePayment t.Profile.Payment with
      | some e => exact ⟨e, rfl⟩
      | none =>
        rw [validateAddress_eq_none] at hb hs
        rw [validatePayment_eq_none] at hp
        simp [hb, hs, hp] at h

theorem AddTask_eq_firstViolation (c : Client) (w : World) (t : types.AddTask) :
    c.AddTask w t =
      match firstViolation (taskRules t) with
      | some msg => ⟨some msg, []⟩
      | none => c.makeRequest w "POST" "/api/sdk/add-task" (Payload.task t) false := by
  rw [taskRules, firstViolation_append, firstViolation_append,
    embeddedProfileRules_firstViolation]
  unfold Client.AddTask
  simp only [TrimSpace_eq_empty]
  cases blank t.Token
  · cases blank t.Bot
    · cases blank t.Site
      · cases blank t.Mode
        · cases blank t.Input
          · cases Client.validateAddress t.Profile.Billing "billing" with
            | some e => simp [firstViolation]
            | none =>
              cases Client.validateAddress t.Profile.Shipping "shipping" with
              | some e => simp [firstViolation]
              | none =>
                cases Client.validatePayment t.Profile.Payment with
                | some e => simp [firstViolation]
                | none => cases blank t.Proxy <;> simp [firstViolation]
          · simp [firstViolation]
        · simp [firstViolation]
      · simp [firstViolation]
    · simp [firstViolation]
  · simp [firstViolation]

theorem taskRules_messages (t : types.AddTask) :
    (taskRules t).map Prod.snd = taskMessages := rfl

theorem embeddedProfileRules_messages (t : types.AddTask) :
    (embeddedProfileRules t).map Prod.snd = (taskMessages.drop 5).take 19 := rfl

/-- C16: `AddTask` reports the first violated rule in the order token, bot,
site, mode, input, billing address (name, phone, line1, postCode, city,
country, state), shipping address (same seven), payment (name, type, lastFour,
expMonth, expYear), proxy.  Its result is the message of the first rule of that
list the task violates, with nothing serialised or sent, and the result of
`makeRequest` when no rule is violated; a task fails validation exactly when
some rule is violated.  A task with an invalid address or payment field never
reports "proxy is required", whatever its proxy; when its token, bot, site,
mode and input are non-blank it reports one of the address or payment messages. -/
theorem AddTask_first_violation (c : Client) (w : World) (t : types.AddTask) :
    (c.AddTask w t =
      match firstViolation (taskRules t) with
      | some msg => ⟨some msg, []⟩
      | none => c.makeRequest w "POST" "/api/sdk/add-task" (Payload.task t) false) ∧
    (taskValid t = false ↔ (firstViolation (taskRules t)).isSome = true) ∧
    (taskRules t).map Prod.snd = taskMessages ∧
    ((addressValid t.Profile.Billing = false ∨ addressValid t.Profile.Shipping = false ∨
        paymentValid t.Profile.Payment = false) →
      (c.AddTask w t).ret ≠ some "proxy is required" ∧
      (blank t.Token = false → blank t.Bot = false → blank t.Site = false →
        blank t.Mode = false → blank t.Input = false →
        ∃ m ∈ (taskMessages.drop 5).take 19, c.AddTask w t = ⟨some m, []⟩)) := by
  have hmain := AddTask_eq_firstViolation c w t
  refine ⟨hmain, ?_, rfl, ?_⟩
  · constructor
    · intro hv
      obtain ⟨msg, hmsg⟩ := AddTask_rejects t hv
      cases hf : firstViolation (taskRules t) with
      | some m => rfl
      | none =>
        have h := hmsg c w
        rw [hmain, hf] at h
        exact absurd h (makeRequest_ne_rejection c w _ _ _ _ _)
    · intro hsome
      cases hv : taskValid t with
      | false => rfl
      | true =>
        have h := AddTask_accepts c w t hv
        cases hf : firstViolation (taskRules t) with
        | none => simp [hf] at hsome
        | some m =>
          rw [hmain, hf] at h
          exact absurd h.symm (makeRequest_ne_rejection c w _ _ _ _ _)
  · intro hinv
    obtain ⟨m, hm⟩ := embeddedProfileRules_isSome t hinv
    constructor
    · have hpre : ∃ m', firstViolation
          ([(blank t.Token, "user access token is required"),
            (blank t.Bot, "bot name is required"),
            (blank t.Site, "site is required"),
            (blank t.Mode, "mode is required"),
            (blank t.Input, "input is required")] ++ embeddedProfileRules t) = some m' := by
        rw [firstViolation_append, hm]
        cases firstViolation [(blank t.Token, "user access token is required"),
            (blank t.Bot, "bot name is required"),
            (blank t.Site, "site is required"),
            (blank t.Mode, "mode is required"),
            (blank t.Input, "input is required")] with
        | none => exact ⟨m, rfl⟩
        | some e => exact ⟨e, rfl⟩
      obtain ⟨m', hm'⟩ := hpre
      have hmem := firstViolation_mem _ _ hm'
      have hlist : List.map Prod.snd
          ([(blank t.Token, "user access token is required"),
            (blank t.Bot, "bot name is required"),
            (blank t.Site, "site is required"),
            (blank t.Mode, "mode is required"),
            (blank t.Input, "input is required")] ++ embeddedProfileRules t) =
          taskMessages.take 24 := rfl
      rw [hlist] at hmem
      have hne : m' ≠ "proxy is required" := by
        intro heq
        rw [heq] at hmem
        exact absurd hmem (by decide)
      have hfull : firstViolation (taskRules t) = some m' := by
        rw [taskRules, firstViolation_append, hm']
        rfl
      rw [hmain, hfull]
      simpa using hne
    · intro h1 h2 h3 h4 h5
      refine ⟨m, ?_, ?_⟩
      · rw [← embeddedProfileRules_messages t]
        exact firstViolation_mem _ _ hm
      · have hfull : firstViolation (taskRules t) = some m := by
          rw [taskRules, firstViolation_append, firstViolation_append, hm, h1, h2, h3, h4, h5]
          rfl
        rw [hmain, hfull]

/-- Witness for C16: a task with an empty proxy whose payment lacks the
expiry year reports the payment rule, not the proxy rule. -/
theorem AddTask_first_violation_witness :
    sampleClient.AddTask (stubWorld 201 "") taskNoProxyNoExpYear =
      ⟨some "payment expYear is required", []⟩ ∧
    (sampleClient.AddTask (stubWorld 201 "") taskNoProxyNoExpYear).ret ≠
      some "proxy is required" :=
  ⟨(AddTask_first_violation sampleClient (stubWorld 201 "") taskNoProxyNoExpYear).1,
   ((AddTask_first_violation sampleClient (stubWorld 201 "") taskNoProxyNoExpYear).2.2.2
      (by decide)).1⟩

/-! ## Webhook rule order -/

theorem fieldLoop_eq_firstViolation (i : Nat) (fs : List types.Field) (j : Nat) :
    Webhook.fieldLoop i j fs =
      firstViolation ((fs.enumFrom j).flatMap fun jf =>
        [(blank jf.2.Name,
            "embed " ++ fmtIndex i ++ ", field " ++ fmtIndex jf.1 ++ ": name is required"),
         (blank jf.2.Value,
            "embed " ++ fmtIndex i ++ ", field " ++ fmtIndex jf.1 ++ ": value is required")]) := by
  induction fs generalizing j with
  | nil => simp [Webhook.fieldLoop, firstViolation]
  | cons f rest ih =>
    rw [List.enumFrom_cons, List.flatMap_cons, firstViolation_append, ← ih (j + 1)]
    simp only [Webhook.fieldLoop, TrimSpace_eq_empty]
    cases blank f.Name <;> cases blank f.Value <;> simp [firstViolation]

theorem embedLoop_eq_firstViolation (es : List types.Embed) (i : Nat) :
    Webhook.embedLoop i es =
      firstViolation ((es.enumFrom i).flatMap fun ie =>
        (decide (25 < ie.2.Fields.length),
            "embed " ++ fmtIndex ie.1 ++ " exceeds the maximum of 25 fields") ::
          fieldRules ie.1 ie.2.Fields) := by
  induction es generalizing i with
  | nil => simp [Webhook.embedLoop, firstViolation]
  | cons e rest ih =>
    rw [List.enumFrom_cons, List.flatMap_cons, firstViolation_append, ← ih (i + 1)]
    have hf : firstViolation (fieldRules i e.Fields) = Webhook.fieldLoop i 0 e.Fields := by
      rw [fieldLoop_eq_firstViolation]
      rfl
    simp only [Webhook.embedLoop]
    by_cases hlen : 25 < e.Fields.length
    · simp [hlen, firstViolation]
    · simp only [gt_iff_lt, hlen, if_false, decide_False, firstViolation_cons_false, hf]
      cases Webhook.fieldLoop i 0 e.Fields <;> simp

theorem validate_eq_firstViolation (p : types.Webhook) :
    Webhook.validate p = firstViolation (webhookRules p) := by
  have hloop : Webhook.embedLoop 0 p.Embeds = firstViolation (embedRules p.Embeds) := by
    rw [embedLoop_eq_firstViolation]
    rfl
  by_cases hne : 0 < p.Embeds.length
  · have hemp : p.Embeds.isEmpty = false := by
      cases hE : p.Embeds with
      | nil => simp [hE] at hne
      | cons e es => rfl
    by_cases hle : p.Embeds.length ≤ 10
    · rw [validate_of_nonempty p hne hle, hloop]
      have hgt : ¬ 10 < p.Embeds.length := by omega
      simp [webhookRules, hemp, hgt, firstViolation]
    · have hgt : 10 < p.Embeds.length := by omega
      simp [Webhook.validate, webhookRules, hne, hgt, hemp, firstViolation]
  · have h0 : p.Embeds = [] := List.length_eq_zero.1 (by omega)
    rw [validate_no_embeds p h0]
    cases hb : contentBlank p <;>
      simp [webhookRules, h0, hb, firstViolation, embedRules]

theorem fieldLoop_at (i : Nat) (fs : List types.Field) (k j : Nat) (f : types.Field)
    (hj : fs[j]? = some f)
    (hpre : ∀ j', j' < j → ∀ f', fs[j']? = some f' →
      blank f'.Name = false ∧ blank f'.Value = false)
    (hbad : blank f.Name = true ∨ blank f.Value = true) :
    Webhook.fieldLoop i k fs =
      some (if blank f.Name = true then
          "embed " ++ fmtIndex i ++ ", field " ++ fmtIndex (k + j) ++ ": name is required"
        else
          "embed " ++ fmtIndex i ++ ", field " ++ fmtIndex (k + j) ++ ": value is required") := by
  induction fs generalizing k j with
  | nil => simp at hj
  | cons f0 rest ih =>
    cases j with
    | zero =>
      simp only [List.getElem?_cons_zero, Option.some.injEq] at hj
      subst hj
      simp only [Webhook.fieldLoop, TrimSpace_eq_empty, Nat.add_zero]
      cases hn : blank f0.Name with
      | true => simp
      | false =>
        have hv : blank f0.Value = true := by simpa [hn] using hbad
        simp [hv]
    | succ j' =>
      have h0 := hpre 0 (Nat.succ_pos _) f0 (by simp)
      have hrec := ih (k + 1) j' (by simpa using hj)
        (fun j'' hj'' f' hf' => hpre (j'' + 1) (Nat.succ_lt_succ hj'') f' (by simpa using hf'))
      have hidx : k + 1 + j' = k + (j' + 1) := by omega
      rw [hidx] at hrec
      simp only [Webhook.fieldLoop, TrimSpace_eq_empty, h0.1, h0.2]
      simpa using hrec

theorem embedLoop_at (es : List types.Embed) (k i : Nat) (e : types.Embed) (m : String)
    (hi : es[i]? = some e)
    (hpre : ∀ i', i' < i → ∀ e', es[i']? = some e' → embedOk e' = true)
    (hlen : e.Fields.length ≤ 25) (hm : Webhook.fieldLoop (k + i) 0 e.Fields = some m) :
    Webhook.embedLoop k es = some m := by
  induction es generalizing k i with
  | nil => simp at hi
  | cons e0 rest ih =>
    cases i with
    | zero =>
      simp only [List.getElem?_cons_zero, Option.some.injEq] at hi
      subst hi
      simp only [Nat.add_zero] at hm
      simp [Webhook.embedLoop, Nat.not_lt.2 hlen, hm]
    | succ i' =>
      have h0 : embedOk e0 = true := hpre 0 (Nat.succ_pos _) e0 (by simp)
      rw [embedLoop_cons_ok k e0 rest h0]
      have hidx : k + 1 + i' = k + (i' + 1) := by omega
      exact ih (k + 1) i' (by simpa using hi)
        (fun j hj e' he' => hpre (j + 1) (Nat.succ_lt_succ hj) e' (by simpa using he'))
        (by rw [hidx]; exact hm)

/-- C17: `Webhook` validation follows the reference rule order.  A payload is
accepted exactly when (content non-blank or embeds non-empty), there are at
most 10 embeds, every embed has at most 25 fields and every field has a
non-blank name and a non-blank value.  When it is rejected, the error is the
message of the first violated rule in the order: presence, embed count, then
for each embed in sequence order its field count followed, for each of its
fields in sequence order, by the name rule and the value rule; nothing is
serialised or sent.  The first offending field, at field index `j` of embed
`i`, is reported as "embed i, field j: name is required" or, when its name is
non-blank, "embed i, field j: value is required". -/
theorem Webhook_rule_order (c : Client) (w : World) (url : String) (p : types.Webhook) :
    (Webhook.validate p = none ↔
      ((contentBlank p = false ∨ p.Embeds ≠ []) ∧ p.Embeds.length ≤ 10 ∧
        ∀ e ∈ p.Embeds, e.Fields.length ≤ 25 ∧
          ∀ f ∈ e.Fields, blank f.Name = false ∧ blank f.Value = false)) ∧
    (c.Webhook w url p =
      match firstViolation (webhookRules p) with
      | some msg => ⟨(none, some msg), []⟩
      | none => Webhook.send w url p) ∧
    (∀ (i j : Nat) (e : types.Embed) (f : types.Field), p.Embeds.length ≤ 10 →
      p.Embeds[i]? = some e →
      (∀ i', i' < i → ∀ e', p.Embeds[i']? = some e' → embedOk e' = true) →
      e.Fields.length ≤ 25 → e.Fields[j]? = some f →
      (∀ j', j' < j → ∀ f', e.Fields[j']? = some f' →
        blank f'.Name = false ∧ blank f'.Value = false) →
      (blank f.Name = true →
        c.Webhook w url p =
          ⟨(none, some ("embed " ++ fmtIndex i ++ ", field " ++ fmtIndex j ++
            ": name is required")), []⟩) ∧
      (blank f.Name = false → blank f.Value = true →
        c.Webhook w url p =
          ⟨(none, some ("embed " ++ fmtIndex i ++ ", field " ++ fmtIndex j ++
            ": value is required")), []⟩)) := by
  refine ⟨?_, ?_, ?_⟩
  · rw [validate_eq_none_iff]
    simp only [webhookValid, embedOk, fieldsOk, Bool.and_eq_true, Bool.or_eq_true,
      Bool.not_eq_true', decide_eq_true_eq, List.all_eq_true, List.isEmpty_eq_false, ne_eq,
      and_assoc]
  · rw [← validate_eq_firstViolation]
    cases hv : Webhook.validate p with
    | some err => exact Webhook_of_validate_some c w url p err hv
    | none => exact Webhook_of_validate_none c w url p hv
  · intro i j e f h10 hi hpre hlen hj hprej
    have hpos : 0 < p.Embeds.length := by
      rcases List.getElem?_eq_some.1 hi with ⟨hlt, _⟩
      omega
    have hv := validate_of_nonempty p hpos h10
    constructor
    · intro hn
      apply Webhook_of_validate_some
      have hfl := fieldLoop_at i e.Fields 0 j f hj hprej (Or.inl hn)
      rw [hv, embedLoop_at p.Embeds 0 i e _ hi hpre hlen (by rw [Nat.zero_add]; exact hfl)]
      simp [hn]
    · intro hn hval
      apply Webhook_of_validate_some
      have hfl := fieldLoop_at i e.Fields 0 j f hj hprej (Or.inr hval)
      rw [hv, embedLoop_at p.Embeds 0 i e _ hi hpre hlen (by rw [Nat.zero_add]; exact hfl)]
      simp [hn]

/-- Witness for C17: field 1 of embed 1 has a blank value and is the first
offending field, although field 2 of that embed is blank as well. -/
theorem Webhook_rule_order_witness :
    sampleClient.Webhook (stubWorld 204 "") "https://hook.example/1" payloadBlankValue =
      ⟨(none, some "embed 1, field 1: value is required"), []⟩ :=
  ((Webhook_rule_order sampleClient (stubWorld 204 "") "https://hook.example/1"
      payloadBlankValue).2.2 1 1
      (embedWith [sampleField, ⟨"Price", " ", none⟩, ⟨"", "", none⟩]) ⟨"Price", " ", none⟩
      (by decide) rfl
      (fun i' hi' e' he' => by
        have h0 : i' = 0 := by omega
        subst h0
        cases he'
        decide)
      (by decide) rfl
      (fun j' hj' f' hf' => by
        have h0 : j' = 0 := by omega
        subst h0
        cases hf'
        decide)).2 (by decide) (by decide)

/-! ## Trimmed required strings -/

theorem blank_eq_not_hasVisible (s : String) : blank s = !hasVisible s := by
  unfold blank hasVisible
  induction s.data with
  | nil => rfl
  | cons ch rest ih =>
    simp only [List.all_cons, List.any_cons, ih]
    cases isSpace ch <;> simp

theorem AddOrder_eq_firstViolation (c : Client) (w : World) (o : types.AddOrder) :
    c.AddOrder w o =
      match firstViolation (orderRules o) with
      | some msg => ⟨some msg, []⟩
      | none => c.makeRequest w "POST" "/api/sdk/add-order" (Payload.order o) false := by
  unfold Client.AddOrder orderRules
  simp only [TrimSpace_eq_empty]
  cases blank o.Token <;> cases blank o.Name <;> cases blank o.Status <;>
    cases blank o.OrderNumber <;> simp [firstViolation]

/-- C18: required strings are checked after trimming surrounding white space.
`AddOrder` accepts an order (its result is that of `makeRequest`) exactly when
each of token, name, status and orderNumber holds at least one character that
is no white space; a field that is empty or made of white space only (space,
tab and line feed are white space) is blank, and the first blank field in the
order token, name, status, orderNumber determines the message; the other
fields of the order change neither the verdict nor the error. -/
theorem AddOrder_trimmed (c : Client) (w : World) (o : types.AddOrder) :
    (c.AddOrder w o = c.makeRequest w "POST" "/api/sdk/add-order" (Payload.order o) false ↔
      (hasVisible o.Token = true ∧ hasVisible o.Name = true ∧ hasVisible o.Status = true ∧
        hasVisible o.OrderNumber = true)) ∧
    (c.AddOrder w o =
      match firstViolation (orderRules o) with
      | some msg => ⟨some msg, []⟩
      | none => c.makeRequest w "POST" "/api/sdk/add-order" (Payload.order o) false) ∧
    (∀ s : String, (hasVisible s = true ↔ ∃ ch ∈ s.data, isSpace ch = false) ∧
      (blank s = true ↔ ∀ ch ∈ s.data, isSpace ch = true) ∧
      (TrimSpace s = "" ↔ blank s = true)) ∧
    (blank "" = true ∧ isSpace ' ' = true ∧ isSpace (Char.ofNat 9) = true ∧
      isSpace (Char.ofNat 10) = true) ∧
    (∀ extra : List (String × String),
      orderValid (orderWithExtra o extra) = orderValid o ∧
      (orderValid o = false → c.AddOrder w (orderWithExtra o extra) = c.AddOrder w o)) := by
  have hmain := AddOrder_eq_firstViolation c w o
  refine ⟨?_, hmain, ?_, ⟨rfl, rfl, rfl, rfl⟩, ?_⟩
  · have hvalid : orderValid o = true ↔
        (hasVisible o.Token = true ∧ hasVisible o.Name = true ∧ hasVisible o.Status = true ∧
          hasVisible o.OrderNumber = true) := by
      simp [orderValid, blank_eq_not_hasVisible, and_assoc]
    rw [← hvalid]
    constructor
    · intro heq
      cases hv : orderValid o with
      | true => rfl
      | false =>
        obtain ⟨msg, hmsg⟩ := AddOrder_rejects o hv
        rw [hmsg c w] at heq
        exact absurd heq.symm (makeRequest_ne_rejection c w _ _ _ _ _)
    · intro hv
      exact AddOrder_accepts c w o hv
  · intro s
    refine ⟨by simp [hasVisible], by simp [blank], ?_⟩
    rw [TrimSpace_eq_empty]
  · intro extra
    refine ⟨rfl, fun _ => ?_⟩
    rw [AddOrder_eq_firstViolation, hmain]
    have hr : orderRules (orderWithExtra o extra) = orderRules o := rfl
    rw [hr]
    cases hf : firstViolation (orderRules o) with
    | some m => rfl
    | none =>
      exfalso
      have hv : orderValid o = true := by
        unfold orderRules at hf
        unfold orderValid
        revert hf
        cases blank o.Token <;> cases blank o.Name <;> cases blank o.Status <;>
          cases blank o.OrderNumber <;> simp [firstViolation]
      simp_all

/-- Witness for C18: an order whose name is a tab and whose status is white
space reports the name rule; with other descriptive fields the result is the
same. -/
theorem AddOrder_trimmed_witness :
    sampleClient.AddOrder (stubWorld 201 "") orderBlankNameStatus =
      ⟨some "order name is required", []⟩ ∧
    sampleClient.AddOrder (stubWorld 201 "") (orderWithExtra orderBlankNameStatus []) =
      sampleClient.AddOrder (stubWorld 201 "") orderBlankNameStatus :=
  ⟨(AddOrder_trimmed sampleClient (stubWorld 201 "") orderBlankNameStatus).2.1,
   ((AddOrder_trimmed sampleClient (stubWorld 201 "") orderBlankNameStatus).2.2.2.2 []).2
      (by decide)⟩

/-! ## Removal of embeds and fields -/

theorem embedOk_of_fieldsRemoved (e' e : types.Embed) (h : FieldsRemoved e' e)
    (hok : embedOk e = true) : embedOk e' = true := by
  simp only [embedOk, fieldsOk, Bool.and_eq_true, decide_eq_true_eq, List.all_eq_true] at hok ⊢
  exact ⟨Nat.le_trans h.1.length_le hok.1, fun f hf => hok.2 f (h.1.subset hf)⟩

theorem removal_length_le (l' l : List types.Embed)
    (h : List.SublistForall₂ FieldsRemoved l' l) : l'.length ≤ l.length := by
  induction h with
  | nil => simp
  | cons _ _ ih => simpa using ih
  | cons_right _ ih => exact Nat.le_trans ih (by simp)

theorem removal_all_ok (l' l : List types.Embed)
    (h : List.SublistForall₂ FieldsRemoved l' l) (hok : l.all embedOk = true) :
    l'.all embedOk = true := by
  induction h with
  | nil => rfl
  | cons hr _ ih =>
    simp only [List.all_cons, Bool.and_eq_true] at hok ⊢
    exact ⟨embedOk_of_fieldsRemoved _ _ hr hok.1, ih hok.2⟩
  | cons_right _ ih =>
    simp only [List.all_cons, Bool.and_eq_true] at hok
    exact ih hok.2

/-- C19: webhook validity is closed under removal.  When a payload passes
validation, every payload with the same content whose embeds are a
sub-sequence of the original embeds, each with its fields replaced by a
sub-sequence of its original fields, passes validation too, provided the
presence condition still holds (content non-blank or at least one embed kept);
`Webhook` then goes on to serialisation for it. -/
theorem Webhook_valid_of_reduced (c : Client) (w : World) (url : String)
    (p p' : types.Webhook) (hvalid : Webhook.validate p = none) (hred : Reduced p' p)
    (hpres : contentBlank p' = false ∨ p'.Embeds ≠ []) :
    Webhook.validate p' = none ∧ c.Webhook w url p' = Webhook.send w url p' := by
  have hv : Webhook.validate p' = none := by
    rw [validate_eq_none_iff] at hvalid ⊢
    simp only [webhookValid, Bool.and_eq_true, Bool.or_eq_true, Bool.not_eq_true',
      decide_eq_true_eq, List.isEmpty_eq_false] at hvalid ⊢
    obtain ⟨⟨_, hlen⟩, hall⟩ := hvalid
    refine ⟨⟨?_, Nat.le_trans (removal_length_le _ _ hred.2) hlen⟩,
      removal_all_ok _ _ hred.2 hall⟩
    rcases hpres with h | h
    · exact Or.inl h
    · exact Or.inr (by simpa using h)
  exact ⟨hv, Webhook_of_validate_none c w url p' hv⟩

/-- Witness for C19: dropping embed 1 and the second field of embed 0 from a
valid payload of three embeds leaves a valid payload. -/
theorem Webhook_valid_of_reduced_witness :
    Webhook.validate payloadThreeEmbeds = none ∧
    Webhook.validate payloadThreeEmbedsReduced = none :=
  ⟨by decide,
   (Webhook_valid_of_reduced sampleClient (stubWorld 204 "") "https://hook.example/1"
      payloadThreeEmbeds payloadThreeEmbedsReduced (by decide)
      ⟨rfl,
        List.SublistForall₂.cons
          ⟨List.Sublist.cons₂ _ (List.Sublist.cons _ List.Sublist.slnil), rfl⟩
          (List.SublistForall₂.cons_right
            (List.SublistForall₂.cons ⟨List.Sublist.refl _, rfl⟩ List.SublistForall₂.nil))⟩
      (Or.inl (by decide))).1⟩

end Lunar
